import Mathlib

/-!
# server.c of 01_basic-client-server: the passive side of an RDMA send/receive exchange

A shallow embedding of `src/01_basic-client-server/server.c`, and the properties of its
connection life cycle and of its completion handling.

* Handles (C pointers) are natural numbers, `0` is `NULL`.  Objects created by
  `malloc`, `rdma_create_qp`, `ibv_reg_mr`, ... get a fresh non-zero handle.
* Every function of the source is a state transformer `Prog α`: it takes the
  process state and either returns a value with a new state, or ends the
  process (`die`, that is `exit(EXIT_FAILURE)`).
* The observable behaviour is the `trace`: the list of library calls and
  output lines, in the order in which they happen.
* The result of each library call whose result the source inspects is given
  by a `Transport` oracle, indexed by the number of oracle calls made so far.
  Statements that hold for every oracle hold whatever the library answers.
* `malloc` is assumed to succeed (the source never tests its result); freshly
  allocated bytes are indeterminate and supplied by the oracle.
* Memory safety is not enforced for the fields of records: reading a record that
  has been freed yields what was stored there last.  The `live_*` maps record
  which resources have been acquired and not yet released, and `stale_releases`
  records every release call that hits a resource which is not live.  A release
  call counts as a release whatever it returns (the source discards the results).
* A byte buffer is the list of the bytes of its block.  The `%s` read of `printf`
  has no bound: it yields the C string of a live block that holds a NUL, and is
  recorded as leaving the block otherwise.
* What the adapter writes into a registered buffer is no step of the program:
  statements about a receive buffer hold for whatever bytes it contains.
* The two threads are not interleaved: `poll_cq` and the handlers of the event
  loop are studied each on its own.  Of `main`, the event loop is modelled.
* The constants of the verbs and connection-manager headers have the values
  of `infiniband/verbs.h` and `rdma/rdma_cma.h`.
-/

namespace Server

/-! ## Constants -/

/-- `const int BUFFER_SIZE = 1024;` -/
def BUFFER_SIZE : Nat := 1024

/-- `EXIT_FAILURE` of stdlib.h. -/
def EXIT_FAILURE : Nat := 1

/-- `IBV_WC_SUCCESS` of enum ibv_wc_status in infiniband/verbs.h. -/
def IBV_WC_SUCCESS : Nat := 0

/-- `IBV_WC_SEND` of enum ibv_wc_opcode in infiniband/verbs.h. -/
def IBV_WC_SEND : Nat := 0

/-- `IBV_WC_RECV = 1 << 7` of enum ibv_wc_opcode in infiniband/verbs.h. -/
def IBV_WC_RECV : Nat := 128

/-- `IBV_WR_SEND` of enum ibv_wr_opcode in infiniband/verbs.h. -/
def IBV_WR_SEND : Nat := 2

/-- `IBV_SEND_SIGNALED = 1 << 1` of enum ibv_send_flags in infiniband/verbs.h. -/
def IBV_SEND_SIGNALED : Nat := 2

/-- `IBV_ACCESS_LOCAL_WRITE = 1` of enum ibv_access_flags. -/
def IBV_ACCESS_LOCAL_WRITE : Nat := 1

/-- `IBV_ACCESS_REMOTE_WRITE = 1 << 1` of enum ibv_access_flags. -/
def IBV_ACCESS_REMOTE_WRITE : Nat := 2

/-- `IBV_QPT_RC` of enum ibv_qp_type. -/
def IBV_QPT_RC : Nat := 2

/-- `RDMA_CM_EVENT_CONNECT_REQUEST` of enum rdma_cm_event_type in rdma/rdma_cma.h. -/
def RDMA_CM_EVENT_CONNECT_REQUEST : Nat := 4

/-- `RDMA_CM_EVENT_ESTABLISHED` of enum rdma_cm_event_type. -/
def RDMA_CM_EVENT_ESTABLISHED : Nat := 9

/-- `RDMA_CM_EVENT_DISCONNECTED` of enum rdma_cm_event_type. -/
def RDMA_CM_EVENT_DISCONNECTED : Nat := 10

/-! ## Data model -/

/-- `struct context`: the process-wide transport context. -/
structure context where
  ctx : Nat
  pd : Nat
  cq : Nat
  comp_channel : Nat
  cq_poller_thread : Nat
deriving DecidableEq, Repr

/-- `struct connection`: the per-peer record. -/
structure connection where
  qp : Nat
  recv_mr : Nat
  send_mr : Nat
  recv_region : Nat
  send_region : Nat
deriving DecidableEq, Repr

/-- The fields of `struct rdma_cm_id` that the source reads or writes. -/
structure rdma_cm_id where
  verbs : Nat
  qp : Nat
  context : Nat
deriving DecidableEq, Repr

/-- The fields of `struct rdma_cm_event` that the source reads. -/
structure rdma_cm_event where
  event : Nat
  id : Nat
deriving DecidableEq, Repr

/-- The fields of `struct ibv_wc` that the source reads. -/
structure ibv_wc where
  wr_id : Nat
  status : Nat
  opcode : Nat
deriving DecidableEq, Repr

/-- `struct ibv_sge`. -/
structure ibv_sge where
  addr : Nat
  length : Nat
  lkey : Nat
deriving DecidableEq, Repr

/-- `struct ibv_recv_wr`; `sg_list` holds the `num_sge` entries the pointer addresses. -/
structure ibv_recv_wr where
  wr_id : Nat
  next : Nat
  sg_list : List ibv_sge
  num_sge : Nat
deriving DecidableEq, Repr

/-- `struct ibv_send_wr`, the fields left at zero by `memset` apart from `wr_id` omitted. -/
structure ibv_send_wr where
  wr_id : Nat
  next : Nat
  sg_list : List ibv_sge
  num_sge : Nat
  opcode : Nat
  send_flags : Nat
deriving DecidableEq, Repr

/-- `struct ibv_qp_cap`. -/
structure ibv_qp_cap where
  max_send_wr : Nat
  max_recv_wr : Nat
  max_send_sge : Nat
  max_recv_sge : Nat
  max_inline_data : Nat
deriving DecidableEq, Repr

/-- `struct ibv_qp_init_attr`. -/
structure ibv_qp_init_attr where
  qp_context : Nat
  send_cq : Nat
  recv_cq : Nat
  srq : Nat
  cap : ibv_qp_cap
  qp_type : Nat
  sq_sig_all : Nat
deriving DecidableEq, Repr

/-- The fields of `struct ibv_mr` that matter here. -/
structure ibv_mr where
  pd : Nat
  addr : Nat
  length : Nat
  lkey : Nat
deriving DecidableEq, Repr

/-- What a `malloc` call allocates. -/
inductive AllocKind where
  | struct_context
  | struct_connection
  | bytes (n : Nat)
deriving DecidableEq, Repr

/-- What a conversion of a `printf` call is applied to. -/
inductive Arg where
  /-- Conversion `%s` with a pointer to a C string: the bytes of the string, without its
  NUL. -/
  | str (bytes : List Nat)
  /-- Conversion `%s` with a pointer `p` that does not address a C string inside a live
  block: the read leaves the block, and what is printed is not defined. -/
  | wild (p : Nat)
  /-- Conversion `%d` with an `int`. -/
  | int (i : Int)
deriving DecidableEq, Repr

/-- One observable step of the process: a library call with its arguments and result,
or a line of output. -/
inductive Effect where
  | printf (fmt : String) (args : List Arg)
  | fprintf_stderr (fmt : String) (arg : String)
  | exit (status : Nat)
  | malloc (what : AllocKind) (ret : Nat)
  | free (p : Nat)
  | getpid (ret : Int)
  | snprintf (dst : Nat) (size : Nat) (stored : List Nat)
  | ibv_alloc_pd (ctx : Nat) (ret : Nat)
  | ibv_create_comp_channel (ctx : Nat) (ret : Nat)
  | ibv_create_cq (ctx : Nat) (cqe : Nat) (channel : Nat) (ret : Nat)
  | ibv_req_notify_cq (cq : Nat) (solicited_only : Nat) (ret : Int)
  | pthread_create (start_routine : String) (ret : Int)
  | rdma_create_qp (id : Nat) (pd : Nat) (attr : ibv_qp_init_attr) (ret : Int)
  | ibv_reg_mr (pd : Nat) (addr : Nat) (length : Nat) (access : Nat) (ret : Nat)
  | ibv_post_recv (qp : Nat) (wr : ibv_recv_wr) (ret : Int)
  | ibv_post_send (qp : Nat) (wr : ibv_send_wr) (payload : List (List Nat)) (ret : Int)
  | rdma_accept (id : Nat) (ret : Int)
  | rdma_destroy_qp (id : Nat)
  | ibv_dereg_mr (mr : Nat)
  | rdma_destroy_id (id : Nat)
  | ibv_get_cq_event (channel : Nat) (cq : Nat) (ret : Int)
  | ibv_ack_cq_events (cq : Nat) (nevents : Nat)
  | ibv_poll_cq (cq : Nat) (num_entries : Nat) (ret : Int) (wc : ibv_wc)
  | rdma_get_cm_event (ev : Option rdma_cm_event)
  | rdma_ack_cm_event (ev : rdma_cm_event)
deriving DecidableEq, Repr

/-- The state of the process. -/
structure State where
  /-- `static struct context *s_ctx`: `none` is `NULL`. -/
  s_ctx : Option context
  /-- Contents of the `struct rdma_cm_id` objects, by address. -/
  ids : Nat → rdma_cm_id
  /-- Contents of the `struct connection` objects, by address. -/
  conns : Nat → connection
  /-- Contents of the `struct ibv_mr` objects, by address. -/
  mrs : Nat → ibv_mr
  /-- Contents of the byte buffers, by start address. -/
  mem : Nat → List Nat
  /-- Identifiers created by the connection manager and not yet destroyed. -/
  live_ids : Nat → Bool
  /-- Queue pairs created and not yet destroyed. -/
  live_qps : Nat → Bool
  /-- Memory registrations made and not yet deregistered. -/
  live_mrs : Nat → Bool
  /-- Heap blocks allocated and not yet freed. -/
  live_heap : Nat → Bool
  /-- Release calls that hit a resource which was not live. -/
  stale_releases : List Effect
  /-- Source of fresh handles. -/
  next : Nat
  /-- Number of oracle calls made so far. -/
  clock : Nat
  /-- Everything the process did, oldest first. -/
  trace : List Effect

/-- The results of the library calls, as a function of the number of oracle calls made
before.  A pointer-returning call is answered by whether it returns an object (`false`:
`NULL`); `ibv_reg_mr` by the local key of the new registration (`none`: `NULL`). -/
structure Transport where
  ibv_alloc_pd : Nat → Bool
  ibv_create_comp_channel : Nat → Bool
  ibv_create_cq : Nat → Bool
  ibv_req_notify_cq : Nat → Int
  pthread_create : Nat → Int
  rdma_create_qp : Nat → Int
  ibv_reg_mr : Nat → Option Nat
  ibv_post_recv : Nat → Int
  ibv_post_send : Nat → Int
  rdma_accept : Nat → Int
  getpid : Nat → Int
  ibv_get_cq_event : Nat → Int × Nat
  ibv_poll_cq : Nat → Int × ibv_wc
  /-- Indeterminate contents of a fresh heap block: handle, then offset. -/
  garbage : Nat → Nat → Nat

/-- How a call of a function of the source ends. -/
inductive Outcome (α : Type) where
  | returned (val : α) (s : State) : Outcome α
  | exited (s : State) : Outcome α

/-- The state in which the call ended. -/
def Outcome.state {α : Type} : Outcome α → State
  | .returned _ s => s
  | .exited s => s

/-- Whether the call ended the process. -/
def Outcome.isExited {α : Type} : Outcome α → Bool
  | .returned _ _ => false
  | .exited _ => true

/-- Sequencing: the continuation runs only when the first part returned. -/
def Outcome.bind {α β : Type} (o : Outcome α) (f : α → State → Outcome β) : Outcome β :=
  match o with
  | .returned a s => f a s
  | .exited s => .exited s

/-- A function of the source. -/
abbrev Prog (α : Type) : Type := State → Outcome α

instance : Monad Prog where
  pure a := fun s => .returned a s
  bind m f := fun s => (m s).bind f

/-! ## The environment: libc and the verbs / connection-manager libraries -/

/-- Append one effect to the trace. -/
def emit (e : Effect) : Prog Unit :=
  fun s => .returned () { s with trace := s.trace ++ [e] }

/-- Read the state. -/
def get_state : Prog State :=
  fun s => .returned s s

/-- Pointwise update of a store. -/
def upd {β : Type} (f : Nat → β) (k : Nat) (v : β) : Nat → β :=
  fun j => if j = k then v else f j

/-- `printf` with its format and arguments. -/
def printf (fmt : String) (args : List Arg) : Prog Unit :=
  emit (.printf fmt args)

/-- `malloc`: a fresh live block.  The bytes of a byte buffer are indeterminate; a
structure keeps whatever its store held at that address. -/
def malloc (env : Transport) (what : AllocKind) : Prog Nat :=
  fun s =>
    let p := s.next + 1
    .returned p { s with
      next := s.next + 1
      live_heap := upd s.live_heap p true
      mem := match what with
        | .bytes n => upd s.mem p ((List.range n).map (env.garbage p))
        | _ => s.mem
      trace := s.trace ++ [.malloc what p] }

/-- `free`: `free(NULL)` does nothing; freeing a block that is not live is recorded. -/
def free (p : Nat) : Prog Unit :=
  fun s =>
    .returned () { s with
      live_heap := if p = 0 then s.live_heap else upd s.live_heap p false
      stale_releases :=
        if p = 0 ∨ s.live_heap p = true then s.stale_releases
        else s.stale_releases ++ [.free p]
      trace := s.trace ++ [.free p] }

/-- `getpid`. -/
def getpid (env : Transport) : Prog Int :=
  fun s =>
    let r := env.getpid s.clock
    .returned r { s with clock := s.clock + 1, trace := s.trace ++ [.getpid r] }

/-- `ibv_alloc_pd`. -/
def ibv_alloc_pd (env : Transport) (ctx : Nat) : Prog Nat :=
  fun s =>
    let r := if env.ibv_alloc_pd s.clock then s.next + 1 else 0
    .returned r { s with
      clock := s.clock + 1, next := s.next + 1, trace := s.trace ++ [.ibv_alloc_pd ctx r] }

/-- `ibv_create_comp_channel`. -/
def ibv_create_comp_channel (env : Transport) (ctx : Nat) : Prog Nat :=
  fun s =>
    let r := if env.ibv_create_comp_channel s.clock then s.next + 1 else 0
    .returned r { s with
      clock := s.clock + 1, next := s.next + 1
      trace := s.trace ++ [.ibv_create_comp_channel ctx r] }

/-- `ibv_create_cq(ctx, cqe, NULL, channel, 0)`. -/
def ibv_create_cq (env : Transport) (ctx cqe channel : Nat) : Prog Nat :=
  fun s =>
    let r := if env.ibv_create_cq s.clock then s.next + 1 else 0
    .returned r { s with
      clock := s.clock + 1, next := s.next + 1
      trace := s.trace ++ [.ibv_create_cq ctx cqe channel r] }

/-- `ibv_req_notify_cq`. -/
def ibv_req_notify_cq (env : Transport) (cq solicited_only : Nat) : Prog Int :=
  fun s =>
    let r := env.ibv_req_notify_cq s.clock
    .returned r { s with
      clock := s.clock + 1, trace := s.trace ++ [.ibv_req_notify_cq cq solicited_only r] }

/-- `pthread_create(&thread, NULL, start_routine, NULL)`: result and thread handle. -/
def pthread_create (env : Transport) (start_routine : String) : Prog (Int × Nat) :=
  fun s =>
    let r := env.pthread_create s.clock
    .returned (r, s.next + 1) { s with
      clock := s.clock + 1, next := s.next + 1
      trace := s.trace ++ [.pthread_create start_routine r] }

/-- `rdma_create_qp`: on success a new live queue pair is stored in `id->qp`. -/
def rdma_create_qp (env : Transport) (id pd : Nat) (attr : ibv_qp_init_attr) : Prog Int :=
  fun s =>
    let r := env.rdma_create_qp s.clock
    let q := s.next + 1
    if r = 0 then
      .returned r { s with
        clock := s.clock + 1, next := s.next + 1
        ids := upd s.ids id { s.ids id with qp := q }
        live_qps := upd s.live_qps q true
        trace := s.trace ++ [.rdma_create_qp id pd attr r] }
    else
      .returned r { s with
        clock := s.clock + 1, next := s.next + 1
        trace := s.trace ++ [.rdma_create_qp id pd attr r] }

/-- `ibv_reg_mr`: on success a new live registration. -/
def ibv_reg_mr (env : Transport) (pd addr length access : Nat) : Prog Nat :=
  fun s =>
    let m := s.next + 1
    match env.ibv_reg_mr s.clock with
    | some lkey =>
      .returned m { s with
        clock := s.clock + 1, next := s.next + 1
        mrs := upd s.mrs m { pd := pd, addr := addr, length := length, lkey := lkey }
        live_mrs := upd s.live_mrs m true
        trace := s.trace ++ [.ibv_reg_mr pd addr length access m] }
    | none =>
      .returned 0 { s with
        clock := s.clock + 1, next := s.next + 1
        trace := s.trace ++ [.ibv_reg_mr pd addr length access 0] }

/-- `ibv_post_recv`. -/
def ibv_post_recv (env : Transport) (qp : Nat) (wr : ibv_recv_wr) : Prog Int :=
  fun s =>
    let r := env.ibv_post_recv s.clock
    .returned r { s with clock := s.clock + 1, trace := s.trace ++ [.ibv_post_recv qp wr r] }

/-- The bytes that the scatter entries of a send request address in the state `s`. -/
def payload (s : State) (wr : ibv_send_wr) : List (List Nat) :=
  wr.sg_list.map (fun e => (s.mem e.addr).take e.length)

/-- `ibv_post_send`.  The trace records, with the work request, the bytes that its
scatter entries address when the call is made: what the adapter is given to send. -/
def ibv_post_send (env : Transport) (qp : Nat) (wr : ibv_send_wr) : Prog Int :=
  fun s =>
    let r := env.ibv_post_send s.clock
    .returned r { s with
      clock := s.clock + 1, trace := s.trace ++ [.ibv_post_send qp wr (payload s wr) r] }

/-- `rdma_accept(id, &cm_params)` with zeroed parameters. -/
def rdma_accept (env : Transport) (id : Nat) : Prog Int :=
  fun s =>
    let r := env.rdma_accept s.clock
    .returned r { s with clock := s.clock + 1, trace := s.trace ++ [.rdma_accept id r] }

/-- `rdma_destroy_qp(id)`: destroys the queue pair `id->qp`. -/
def rdma_destroy_qp (id : Nat) : Prog Unit :=
  fun s =>
    let q := (s.ids id).qp
    .returned () { s with
      live_qps := upd s.live_qps q false
      stale_releases :=
        if s.live_qps q then s.stale_releases else s.stale_releases ++ [.rdma_destroy_qp id]
      trace := s.trace ++ [.rdma_destroy_qp id] }

/-- `ibv_dereg_mr(mr)`; the source discards the result. -/
def ibv_dereg_mr (mr : Nat) : Prog Unit :=
  fun s =>
    .returned () { s with
      live_mrs := upd s.live_mrs mr false
      stale_releases :=
        if s.live_mrs mr then s.stale_releases else s.stale_releases ++ [.ibv_dereg_mr mr]
      trace := s.trace ++ [.ibv_dereg_mr mr] }

/-- `rdma_destroy_id(id)`; the source discards the result. -/
def rdma_destroy_id (id : Nat) : Prog Unit :=
  fun s =>
    .returned () { s with
      live_ids := upd s.live_ids id false
      stale_releases :=
        if s.live_ids id then s.stale_releases else s.stale_releases ++ [.rdma_destroy_id id]
      trace := s.trace ++ [.rdma_destroy_id id] }

/-- `ibv_get_cq_event(channel, &cq, &ctx)`: result and the queue written to `cq`. -/
def ibv_get_cq_event (env : Transport) (channel : Nat) : Prog (Int × Nat) :=
  fun s =>
    let r := env.ibv_get_cq_event s.clock
    .returned r { s with
      clock := s.clock + 1, trace := s.trace ++ [.ibv_get_cq_event channel r.2 r.1] }

/-- `ibv_ack_cq_events(cq, nevents)`. -/
def ibv_ack_cq_events (cq nevents : Nat) : Prog Unit :=
  emit (.ibv_ack_cq_events cq nevents)

/-- `ibv_poll_cq(cq, 1, &wc)`: the result, and the contents of `wc` after the call.  The
library writes `wc` only when it returns a completion (a positive result). -/
def ibv_poll_cq (env : Transport) (cq num_entries : Nat) (wc : ibv_wc) : Prog (Int × ibv_wc) :=
  fun s =>
    let r := env.ibv_poll_cq s.clock
    let wc1 := if 0 < r.1 then r.2 else wc
    .returned (r.1, wc1) { s with
      clock := s.clock + 1, trace := s.trace ++ [.ibv_poll_cq cq num_entries r.1 wc1] }

/-- The bytes of a C string literal. -/
def c_bytes (text : String) : List Nat :=
  text.toList.map Char.toNat

/-- Decimal digits of a natural number, most significant first, as ASCII bytes. -/
def dec_digits (n : Nat) : List Nat :=
  if n = 0 then [48] else ((Nat.digits 10 n).reverse.map (fun d => 48 + d))

/-- The `%d` conversion of printf. -/
def format_d (i : Int) : List Nat :=
  if i < 0 then 45 :: dec_digits i.natAbs else dec_digits i.natAbs

/-- The C string at the start of a block: the bytes before its first NUL.  A block that
holds no NUL holds no C string (`none`): reading one from it runs past the end of the
block. -/
def c_string (buf : List Nat) : Option (List Nat) :=
  if 0 ∈ buf then some (buf.takeWhile (fun b => b != 0)) else none

/-- The `%s` conversion of printf for the pointer `p`: the C string at `p` when `p` is a
live block that holds one.  Otherwise the read of `printf`, which has no bound, leaves the
block. -/
def format_s (s : State) (p : Nat) : Arg :=
  if s.live_heap p = true then
    match c_string (s.mem p) with
    | some text => .str text
    | none => .wild p
  else .wild p

/-- `snprintf(dst, size, ...)` for the already formatted `text`: at most `size - 1` bytes
of it and a terminating NUL are stored at the start of the buffer.  The trace records
what is stored. -/
def snprintf (dst size : Nat) (text : List Nat) : Prog Unit :=
  fun s =>
    let written := if size = 0 then [] else text.take (size - 1) ++ [0]
    .returned () { s with
      mem := upd s.mem dst (written ++ (s.mem dst).drop written.length)
      trace := s.trace ++ [.snprintf dst size written] }

/-! ## The source -/

/-- The source function `die`: prints the reason on stderr and exits. -/
def die {α : Type} (reason : String) : Prog α :=
  fun s => .exited { s with trace := s.trace ++ [.fprintf_stderr "%s\n" reason, .exit EXIT_FAILURE] }

/-- The source's `TEST_NZ(x)`; `expr` is the text of `x`. -/
def TEST_NZ (x : Int) (expr : String) : Prog Unit :=
  if x ≠ 0 then die ("error: " ++ expr ++ " failed (returned non-zero).") else pure ()

/-- The source's `TEST_Z(x)`; `expr` is the text of `x`. -/
def TEST_Z (x : Nat) (expr : String) : Prog Unit :=
  if x = 0 then die ("error: " ++ expr ++ " failed (returned zero/null).") else pure ()

/-- A read through `s_ctx`.  The source reads through it only after `build_context` has
set it. -/
def s_ctx_deref (s : State) : context :=
  s.s_ctx.getD { ctx := 0, pd := 0, cq := 0, comp_channel := 0, cq_poller_thread := 0 }

/-- An assignment through `s_ctx`. -/
def s_ctx_assign (f : context → context) : Prog Unit :=
  fun s => .returned () { s with s_ctx := some (f (s_ctx_deref s)) }

/-- An assignment to fields of `*conn`. -/
def conn_assign (conn : Nat) (f : connection → connection) : Prog Unit :=
  fun s => .returned () { s with conns := upd s.conns conn (f (s.conns conn)) }

/-- The source function `build_context`.  The fields of the freshly allocated
`struct context` read as 0 until the source assigns them. -/
def build_context (env : Transport) (verbs : Nat) : Prog Unit := fun s0 =>
  match s0.s_ctx with
  | some c =>
    if c.ctx ≠ verbs then die "cannot handle events in more than one context." s0
    else .returned () s0
  | none => (do
    let _ ← malloc env .struct_context
    (fun s => .returned ()
      { s with s_ctx := some { ctx := 0, pd := 0, cq := 0, comp_channel := 0,
                               cq_poller_thread := 0 } })
    s_ctx_assign (fun c => { c with ctx := verbs })
    let pd ← ibv_alloc_pd env (s_ctx_deref (← get_state)).ctx
    s_ctx_assign (fun c => { c with pd := pd })
    TEST_Z pd "s_ctx->pd = ibv_alloc_pd(s_ctx->ctx)"
    let ch ← ibv_create_comp_channel env (s_ctx_deref (← get_state)).ctx
    s_ctx_assign (fun c => { c with comp_channel := ch })
    TEST_Z ch "s_ctx->comp_channel = ibv_create_comp_channel(s_ctx->ctx)"
    let cq ← ibv_create_cq env (s_ctx_deref (← get_state)).ctx 10
      (s_ctx_deref (← get_state)).comp_channel
    s_ctx_assign (fun c => { c with cq := cq })
    TEST_Z cq "s_ctx->cq = ibv_create_cq(s_ctx->ctx, 10, NULL, s_ctx->comp_channel, 0)"
    TEST_NZ (← ibv_req_notify_cq env (s_ctx_deref (← get_state)).cq 0)
      "ibv_req_notify_cq(s_ctx->cq, 0)"
    let (r, t) ← pthread_create env "poll_cq"
    s_ctx_assign (fun c => { c with cq_poller_thread := t })
    TEST_NZ r "pthread_create(&s_ctx->cq_poller_thread, NULL, poll_cq, NULL)") s0

/-- The source function `build_qp_attr`, returning the structure it fills. -/
def build_qp_attr : Prog ibv_qp_init_attr := fun s =>
  .returned
    { qp_context := 0
      send_cq := (s_ctx_deref s).cq
      recv_cq := (s_ctx_deref s).cq
      srq := 0
      cap := { max_send_wr := 10, max_recv_wr := 10, max_send_sge := 1, max_recv_sge := 1,
               max_inline_data := 0 }
      qp_type := IBV_QPT_RC
      sq_sig_all := 0 } s

/-- The source function `post_receives`. -/
def post_receives (env : Transport) (conn : Nat) : Prog Unit := do
  let s ← get_state
  let sge : ibv_sge :=
    { addr := (s.conns conn).recv_region
      length := BUFFER_SIZE
      lkey := (s.mrs (s.conns conn).recv_mr).lkey }
  let wr : ibv_recv_wr := { wr_id := conn, next := 0, sg_list := [sge], num_sge := 1 }
  TEST_NZ (← ibv_post_recv env (s.conns conn).qp wr) "ibv_post_recv(conn->qp, &wr, &bad_wr)"

/-- The source function `register_memory`. -/
def register_memory (env : Transport) (conn : Nat) : Prog Unit := do
  let sr ← malloc env (.bytes BUFFER_SIZE)
  conn_assign conn (fun c => { c with send_region := sr })
  let rr ← malloc env (.bytes BUFFER_SIZE)
  conn_assign conn (fun c => { c with recv_region := rr })
  let smr ← ibv_reg_mr env (s_ctx_deref (← get_state)).pd ((← get_state).conns conn).send_region
    BUFFER_SIZE (IBV_ACCESS_LOCAL_WRITE ||| IBV_ACCESS_REMOTE_WRITE)
  conn_assign conn (fun c => { c with send_mr := smr })
  TEST_Z smr "conn->send_mr = ibv_reg_mr( s_ctx->pd, conn->send_region, BUFFER_SIZE, IBV_ACCESS_LOCAL_WRITE | IBV_ACCESS_REMOTE_WRITE)"
  let rmr ← ibv_reg_mr env (s_ctx_deref (← get_state)).pd ((← get_state).conns conn).recv_region
    BUFFER_SIZE (IBV_ACCESS_LOCAL_WRITE ||| IBV_ACCESS_REMOTE_WRITE)
  conn_assign conn (fun c => { c with recv_mr := rmr })
  TEST_Z rmr "conn->recv_mr = ibv_reg_mr( s_ctx->pd, conn->recv_region, BUFFER_SIZE, IBV_ACCESS_LOCAL_WRITE | IBV_ACCESS_REMOTE_WRITE)"

/-- The source function `on_completion`. -/
def on_completion (wc : ibv_wc) : Prog Unit := do
  if wc.status ≠ IBV_WC_SUCCESS then
    die "on_completion: status is not IBV_WC_SUCCESS."
  if wc.opcode &&& IBV_WC_RECV ≠ 0 then
    let conn := wc.wr_id
    let s ← get_state
    printf "received message: %s\n" [format_s s (s.conns conn).recv_region]
  else if wc.opcode = IBV_WC_SEND then
    printf "send completed successfully.\n" []

/-- The source function `on_connect_request`. -/
def on_connect_request (env : Transport) (id : Nat) : Prog Int := do
  printf "received connection request.\n" []
  build_context env ((← get_state).ids id).verbs
  let qp_attr ← build_qp_attr
  TEST_NZ (← rdma_create_qp env id (s_ctx_deref (← get_state)).pd qp_attr)
    "rdma_create_qp(id, s_ctx->pd, &qp_attr)"
  let conn ← malloc env .struct_connection
  (fun s => .returned () { s with ids := upd s.ids id { s.ids id with context := conn } })
  let q := ((← get_state).ids id).qp
  conn_assign conn (fun c => { c with qp := q })
  register_memory env conn
  post_receives env conn
  TEST_NZ (← rdma_accept env id) "rdma_accept(id, &cm_params)"
  return 0

/-- The source function `on_connection`. -/
def on_connection (env : Transport) (context : Nat) : Prog Int := do
  let conn := context
  let pid ← getpid env
  snprintf ((← get_state).conns conn).send_region BUFFER_SIZE
    (c_bytes "message from passive/server side with pid " ++ format_d pid)
  printf "connected. posting send...\n" []
  let s ← get_state
  let sge : ibv_sge :=
    { addr := (s.conns conn).send_region
      length := BUFFER_SIZE
      lkey := (s.mrs (s.conns conn).send_mr).lkey }
  let wr : ibv_send_wr :=
    { wr_id := 0, next := 0, sg_list := [sge], num_sge := 1
      opcode := IBV_WR_SEND, send_flags := IBV_SEND_SIGNALED }
  TEST_NZ (← ibv_post_send env (s.conns conn).qp wr) "ibv_post_send(conn->qp, &wr, &bad_wr)"
  return 0

/-- The source function `on_disconnect`. -/
def on_disconnect (id : Nat) : Prog Int := do
  let conn := ((← get_state).ids id).context
  printf "peer disconnected.\n" []
  rdma_destroy_qp id
  ibv_dereg_mr ((← get_state).conns conn).send_mr
  ibv_dereg_mr ((← get_state).conns conn).recv_mr
  free ((← get_state).conns conn).send_region
  free ((← get_state).conns conn).recv_region
  free conn
  rdma_destroy_id id
  return 0

/-- The source function `on_event`. -/
def on_event (env : Transport) (event : rdma_cm_event) : Prog Int := do
  let mut r : Int := 0
  if event.event = RDMA_CM_EVENT_CONNECT_REQUEST then
    r ← on_connect_request env event.id
  else if event.event = RDMA_CM_EVENT_ESTABLISHED then
    r ← on_connection env ((← get_state).ids event.id).context
  else if event.event = RDMA_CM_EVENT_DISCONNECTED then
    r ← on_disconnect event.id
  else
    die "on_event: unknown event."
  return r

/-- Lines 138-140 of the source function `poll_cq`: wait for a notification, acknowledge
it, re-arm the completion queue.  Returns the queue the notification was for. -/
def poll_cq_notify (env : Transport) : Prog Nat := do
  let (r, cq) ← ibv_get_cq_event env (s_ctx_deref (← get_state)).comp_channel
  TEST_NZ r "ibv_get_cq_event(s_ctx->comp_channel, &cq, &ctx)"
  ibv_ack_cq_events cq 1
  TEST_NZ (← ibv_req_notify_cq env cq 0) "ibv_req_notify_cq(cq, 0)"
  return cq

/-- Lines 142-143 of the source function `poll_cq`:
`while (ibv_poll_cq(cq, 1, &wc)) on_completion(&wc);`.
`wc` is the local variable of `poll_cq`; the result is its final contents.  The number of
polls is bounded by the first argument; `none` means that the loop is still running after
that many polls. -/
def poll_cq_drain (env : Transport) (cq : Nat) : Nat → ibv_wc → State → Option (Outcome ibv_wc)
  | 0, _, _ => none
  | fuel + 1, wc, s =>
    match ibv_poll_cq env cq 1 wc s with
    | .returned (r, wc1) s1 =>
      if r ≠ 0 then
        match on_completion wc1 s1 with
        | .returned _ s2 => poll_cq_drain env cq fuel wc1 s2
        | .exited s2 => some (.exited s2)
      else some (.returned wc1 s1)
    | .exited s1 => some (.exited s1)

/-- One iteration of the `while (1)` loop of the source function `poll_cq`. -/
def poll_cq_iteration (env : Transport) (fuel : Nat) (wc : ibv_wc) (s : State) :
    Option (Outcome ibv_wc) :=
  match poll_cq_notify env s with
  | .returned cq s1 => poll_cq_drain env cq fuel wc s1
  | .exited s1 => some (.exited s1)

/-- The source function `poll_cq`, for at most `n` iterations of its outer loop.  The loop
has no exit: the function ends only by ending the process; `none` means still running. -/
def poll_cq (env : Transport) (fuel : Nat) : Nat → ibv_wc → State → Option State
  | 0, _, _ => none
  | n + 1, wc, s =>
    match poll_cq_iteration env fuel wc s with
    | some (.returned wc1 s1) => poll_cq env fuel n wc1 s1
    | some (.exited s1) => some s1
    | none => none

/-- The event loop of the source function `main` (lines 75-83).  `events` are the events
that `rdma_get_cm_event` delivers before it first returns non-zero.  The result tells
whether the loop was left through `break`. -/
def main_loop (env : Transport) : List rdma_cm_event → Prog Bool
  | [] => do
    emit (.rdma_get_cm_event none)
    return false
  | event :: rest => do
    emit (.rdma_get_cm_event (some event))
    let event_copy := event
    emit (.rdma_ack_cm_event event)
    if (← on_event env event_copy) ≠ 0 then
      return true
    main_loop env rest

/-! ## Assumptions on the environment, and concrete instances -/

/-- Every library call whose result the handlers test succeeds. -/
def Transport.AllSucceed (env : Transport) : Prop :=
  (∀ k, env.ibv_alloc_pd k = true) ∧
  (∀ k, env.ibv_create_comp_channel k = true) ∧
  (∀ k, env.ibv_create_cq k = true) ∧
  (∀ k, env.ibv_req_notify_cq k = 0) ∧
  (∀ k, env.pthread_create k = 0) ∧
  (∀ k, env.rdma_create_qp k = 0) ∧
  (∀ k, (env.ibv_reg_mr k).isSome = true) ∧
  (∀ k, env.ibv_post_recv k = 0) ∧
  (∀ k, env.ibv_post_send k = 0) ∧
  (∀ k, env.rdma_accept k = 0)

/-- The value of `getpid` fits the C type `int`. -/
def is_int (i : Int) : Prop := -2147483648 ≤ i ∧ i ≤ 2147483647

/-- A transport on which every call succeeds; no completion is ever ready. -/
def env_ok : Transport where
  ibv_alloc_pd := fun _ => true
  ibv_create_comp_channel := fun _ => true
  ibv_create_cq := fun _ => true
  ibv_req_notify_cq := fun _ => 0
  pthread_create := fun _ => 0
  rdma_create_qp := fun _ => 0
  ibv_reg_mr := fun k => some (100 + k)
  ibv_post_recv := fun _ => 0
  ibv_post_send := fun _ => 0
  rdma_accept := fun _ => 0
  getpid := fun _ => 4242
  ibv_get_cq_event := fun _ => (0, 4)
  ibv_poll_cq := fun _ => (0, { wr_id := 0, status := 0, opcode := 0 })
  garbage := fun _ _ => 255

/-- The process at the start of `main`'s event loop: no context, nothing allocated, and
the identifiers listed in `ids`, all of device `verbs`, created by the connection manager. -/
def start_state (verbs : Nat) (ids : List Nat) : State where
  s_ctx := none
  ids := fun _ => { verbs := verbs, qp := 0, context := 0 }
  conns := fun _ => { qp := 0, recv_mr := 0, send_mr := 0, recv_region := 0, send_region := 0 }
  mrs := fun _ => { pd := 0, addr := 0, length := 0, lkey := 0 }
  mem := fun _ => []
  live_ids := fun i => decide (i ∈ ids)
  live_qps := fun _ => false
  live_mrs := fun _ => false
  live_heap := fun _ => false
  stale_releases := []
  next := 0
  clock := 0
  trace := []

/-! ## States, effect lists and predicates that the statements below refer to -/

/-- The two effects of `die`. -/
def die_effects (reason : String) : List Effect :=
  [.fprintf_stderr "%s\n" reason, .exit EXIT_FAILURE]

/-- The state with further effects appended to the trace. -/
def State.log (s : State) (es : List Effect) : State :=
  { s with trace := s.trace ++ es }

/-- The text that `on_connection` formats for the process id `pid`. -/
def greeting (pid : Int) : List Nat :=
  c_bytes "message from passive/server side with pid " ++ format_d pid

/-- The send work request that `on_connection` builds for the connection at `conn`. -/
def send_wr (s : State) (conn : Nat) : ibv_send_wr :=
  { wr_id := 0, next := 0
    sg_list := [{ addr := (s.conns conn).send_region, length := BUFFER_SIZE,
                  lkey := (s.mrs (s.conns conn).send_mr).lkey }]
    num_sge := 1, opcode := IBV_WR_SEND, send_flags := IBV_SEND_SIGNALED }

/-- What `snprintf` stores in a buffer of `BUFFER_SIZE` bytes for the text `text`. -/
def stored (text : List Nat) : List Nat :=
  text.take (BUFFER_SIZE - 1) ++ [0]

/-- The send buffer of the connection at `conn` once `on_connection` has formatted the
text for the process id `pid` into it. -/
def greeted_buffer (pid : Int) (conn : Nat) (s : State) : List Nat :=
  stored (greeting pid) ++ (s.mem (s.conns conn).send_region).drop (stored (greeting pid)).length

/-- The state in which `on_connection` leaves the process once `ibv_post_send` has been
called: the send buffer holds the formatted text, and the trace has four more entries. -/
def posted_state (env : Transport) (conn : Nat) (s : State) : State :=
  { s with
    clock := s.clock + 1 + 1
    mem := upd s.mem (s.conns conn).send_region (greeted_buffer (env.getpid s.clock) conn s)
    trace := s.trace ++
      [.getpid (env.getpid s.clock),
       .snprintf (s.conns conn).send_region BUFFER_SIZE (stored (greeting (env.getpid s.clock))),
       .printf "connected. posting send...\n" [],
       .ibv_post_send (s.conns conn).qp (send_wr s conn)
         [(greeted_buffer (env.getpid s.clock) conn s).take BUFFER_SIZE]
         (env.ibv_post_send (s.clock + 1))] }

/-- Whether an effect is a release call. -/
def Effect.is_release : Effect → Bool
  | .rdma_destroy_qp _ => true
  | .ibv_dereg_mr _ => true
  | .free _ => true
  | .rdma_destroy_id _ => true
  | _ => false

/-- Whether an effect is a call of `rdma_accept`. -/
def Effect.is_accept : Effect → Bool
  | .rdma_accept _ _ => true
  | _ => false

/-- The state `t` is reached from `s` by steps among which there is no call of
`rdma_accept` and no release call, stale or not. -/
def Quiet (s t : State) : Prop :=
  t.stale_releases = s.stale_releases ∧
  ∃ l, t.trace = s.trace ++ l ∧ ∀ e ∈ l, e.is_accept = false ∧ e.is_release = false

/-- The effects of a `build_context` that builds the context, for device `v`. -/
def build_effects (v : Nat) (s : State) : List Effect :=
  [.malloc .struct_context (s.next + 1),
   .ibv_alloc_pd v (s.next + 2),
   .ibv_create_comp_channel v (s.next + 3),
   .ibv_create_cq v 10 (s.next + 3) (s.next + 4),
   .ibv_req_notify_cq (s.next + 4) 0 0,
   .pthread_create "poll_cq" 0]

/-- The state after a `build_context` that builds the context, for device `v`. -/
def built_state (v : Nat) (s : State) : State :=
  { s with
    s_ctx := some { ctx := v, pd := s.next + 2, cq := s.next + 4, comp_channel := s.next + 3,
                    cq_poller_thread := s.next + 5 }
    live_heap := upd s.live_heap (s.next + 1) true
    next := s.next + 5
    clock := s.clock + 5
    trace := s.trace ++ build_effects v s }

/-- The five library calls of a `build_context` that starts at clock `k` succeed. -/
def Transport.build_ok (env : Transport) (k : Nat) : Prop :=
  env.ibv_alloc_pd k = true ∧ env.ibv_create_comp_channel (k + 1) = true ∧
  env.ibv_create_cq (k + 2) = true ∧ env.ibv_req_notify_cq (k + 3) = 0 ∧
  env.pthread_create (k + 4) = 0

/-- Lines 208-221 of `on_connect_request`: all that follows the call of `build_context`. -/
def on_connect_request_tail (env : Transport) (id : Nat) : Prog Int := do
  let qp_attr ← build_qp_attr
  TEST_NZ (← rdma_create_qp env id (s_ctx_deref (← get_state)).pd qp_attr)
    "rdma_create_qp(id, s_ctx->pd, &qp_attr)"
  let conn ← malloc env .struct_connection
  (fun s => .returned () { s with ids := upd s.ids id { s.ids id with context := conn } })
  let q := ((← get_state).ids id).qp
  conn_assign conn (fun c => { c with qp := q })
  register_memory env conn
  post_receives env conn
  TEST_NZ (← rdma_accept env id) "rdma_accept(id, &cm_params)"
  return 0

/-- The queue-pair attributes that `build_qp_attr` fills in. -/
def qp_attr_of (s : State) : ibv_qp_init_attr :=
  { qp_context := 0
    send_cq := (s_ctx_deref s).cq
    recv_cq := (s_ctx_deref s).cq
    srq := 0
    cap := { max_send_wr := 10, max_recv_wr := 10, max_send_sge := 1, max_recv_sge := 1,
             max_inline_data := 0 }
    qp_type := IBV_QPT_RC
    sq_sig_all := 0 }

/-- The local key that the oracle gives to the registration made at clock `k`. -/
def Transport.lkey (env : Transport) (k : Nat) : Nat :=
  (env.ibv_reg_mr k).getD 0

/-- The steps of `on_connect_request` between `build_context` and `rdma_accept`, each
with the result of a success; `sb` is the state in which `build_context` returned. -/
def setup_effects (env : Transport) (id : Nat) (sb : State) : List Effect :=
  [.rdma_create_qp id (s_ctx_deref sb).pd (qp_attr_of sb) 0,
   .malloc .struct_connection (sb.next + 2),
   .malloc (.bytes BUFFER_SIZE) (sb.next + 3),
   .malloc (.bytes BUFFER_SIZE) (sb.next + 4),
   .ibv_reg_mr (s_ctx_deref sb).pd (sb.next + 3) BUFFER_SIZE
      (IBV_ACCESS_LOCAL_WRITE ||| IBV_ACCESS_REMOTE_WRITE) (sb.next + 5),
   .ibv_reg_mr (s_ctx_deref sb).pd (sb.next + 4) BUFFER_SIZE
      (IBV_ACCESS_LOCAL_WRITE ||| IBV_ACCESS_REMOTE_WRITE) (sb.next + 6),
   .ibv_post_recv (sb.next + 1)
      { wr_id := sb.next + 2, next := 0
        sg_list := [{ addr := sb.next + 4, length := BUFFER_SIZE,
                      lkey := env.lkey (sb.clock + 2) }]
        num_sge := 1 } 0]

/-- The state of `on_connect_request` when `rdma_accept` has been called, all earlier
steps having succeeded; `sb` is the state in which `build_context` returned. -/
def accepted_state (env : Transport) (id : Nat) (sb : State) : State :=
  { sb with
    ids := upd sb.ids id { verbs := (sb.ids id).verbs, qp := sb.next + 1, context := sb.next + 2 }
    conns := upd sb.conns (sb.next + 2)
      { qp := sb.next + 1, recv_mr := sb.next + 6, send_mr := sb.next + 5,
        recv_region := sb.next + 4, send_region := sb.next + 3 }
    mrs := upd (upd sb.mrs (sb.next + 5)
        { pd := (s_ctx_deref sb).pd, addr := sb.next + 3, length := BUFFER_SIZE,
          lkey := env.lkey (sb.clock + 1) })
      (sb.next + 6)
        { pd := (s_ctx_deref sb).pd, addr := sb.next + 4, length := BUFFER_SIZE,
          lkey := env.lkey (sb.clock + 2) }
    mem := upd (upd sb.mem (sb.next + 3) ((List.range BUFFER_SIZE).map (env.garbage (sb.next + 3))))
      (sb.next + 4) ((List.range BUFFER_SIZE).map (env.garbage (sb.next + 4)))
    live_qps := upd sb.live_qps (sb.next + 1) true
    live_mrs := upd (upd sb.live_mrs (sb.next + 5) true) (sb.next + 6) true
    live_heap := upd (upd (upd sb.live_heap (sb.next + 2) true) (sb.next + 3) true)
      (sb.next + 4) true
    next := sb.next + 6
    clock := sb.clock + 5
    trace := sb.trace ++ setup_effects env id sb ++ [.rdma_accept id (env.rdma_accept (sb.clock + 4))] }

/-- The library calls of `on_connect_request` between `build_context` and `rdma_accept`
succeed, when `build_context` returned at clock `k`. -/
def Transport.setup_ok (env : Transport) (k : Nat) : Prop :=
  env.rdma_create_qp k = 0 ∧ (env.ibv_reg_mr (k + 1)).isSome = true ∧
  (env.ibv_reg_mr (k + 2)).isSome = true ∧ env.ibv_post_recv (k + 3) = 0

/-- The state after an `ibv_poll_cq` that returned `r` and left `wc` in the local
variable. -/
def polled_state (cq : Nat) (r : Int) (wc : ibv_wc) (s : State) : State :=
  { s with clock := s.clock + 1, trace := s.trace ++ [.ibv_poll_cq cq 1 r wc] }

/-- The connection of the identifier `id` is set up in `s`, as `on_connect_request`
leaves it: the record `id->context` holds the queue pair of `id`, and the queue pair, both
registrations, both buffers and the record are live and distinct. -/
structure Connected (s : State) (id : Nat) : Prop where
  qp_eq : (s.conns (s.ids id).context).qp = (s.ids id).qp
  qp_live : s.live_qps (s.ids id).qp = true
  send_mr_live : s.live_mrs (s.conns (s.ids id).context).send_mr = true
  recv_mr_live : s.live_mrs (s.conns (s.ids id).context).recv_mr = true
  mr_ne : (s.conns (s.ids id).context).send_mr ≠ (s.conns (s.ids id).context).recv_mr
  send_region_live : s.live_heap (s.conns (s.ids id).context).send_region = true
  recv_region_live : s.live_heap (s.conns (s.ids id).context).recv_region = true
  record_live : s.live_heap (s.ids id).context = true
  heap_nodup : [(s.conns (s.ids id).context).send_region,
    (s.conns (s.ids id).context).recv_region, (s.ids id).context].Nodup
  heap_pos : (s.conns (s.ids id).context).send_region ≠ 0 ∧
    (s.conns (s.ids id).context).recv_region ≠ 0 ∧ (s.ids id).context ≠ 0

/-- The eight effects of `on_disconnect` for the identifier `id` in the state `s`. -/
def disconnect_effects (s : State) (id : Nat) : List Effect :=
  [.printf "peer disconnected.\n" [],
   .rdma_destroy_qp id,
   .ibv_dereg_mr (s.conns (s.ids id).context).send_mr,
   .ibv_dereg_mr (s.conns (s.ids id).context).recv_mr,
   .free (s.conns (s.ids id).context).send_region,
   .free (s.conns (s.ids id).context).recv_region,
   .free (s.ids id).context,
   .rdma_destroy_id id]

/-- The message that `on_connect_request` prints first. -/
def request_line : Effect :=
  .printf "received connection request.\n" []

/-- A process in which the first connect request, for the identifier 50 on device 1,
has been handled with every library call succeeding. -/
def connected_state : State :=
  accepted_state env_ok 50 (built_state 1 ((start_state 1 [50]).log [request_line]))

/-- A transport on which `ibv_post_send` fails and every other call succeeds. -/
def env_post_send_fails : Transport :=
  { env_ok with ibv_post_send := fun _ => -1 }

/-- The result of an `ibv_poll_cq` effect and the contents of `wc` after it. -/
def Effect.poll_result : Effect → Option (Int × ibv_wc)
  | .ibv_poll_cq _ _ r wc => some (r, wc)
  | _ => none

/-- The state of `poll_cq` when it has waited for a notification, acknowledged it and
re-armed the queue. -/
def notified_state (env : Transport) (s : State) : State :=
  { s with
    clock := s.clock + 2
    trace := s.trace ++
      [.ibv_get_cq_event (s_ctx_deref s).comp_channel (env.ibv_get_cq_event s.clock).2
          (env.ibv_get_cq_event s.clock).1,
       .ibv_ack_cq_events (env.ibv_get_cq_event s.clock).2 1,
       .ibv_req_notify_cq (env.ibv_get_cq_event s.clock).2 0
          (env.ibv_req_notify_cq (s.clock + 1))] }

/-- What draining a queue that holds exactly the completions `wcs` has to do, in the
words of the specification: each completion, in queue order, is polled and handed to
`on_completion` once; the poll that finds the queue empty ends the drain. -/
def drain_in_order (cq : Nat) : List ibv_wc → ibv_wc → State → Outcome ibv_wc
  | [], wc, s => .returned wc (polled_state cq 0 wc s)
  | w :: ws, _, s =>
    (on_completion w (polled_state cq 1 w s)).bind (fun _ => drain_in_order cq ws w)

/-- A transport on which, after a context has been built (five calls), the first
notification finds the completion of a send and the completion of a receive ready. -/
def env_two_ready : Transport :=
  { env_ok with
    ibv_poll_cq := fun k =>
      if k = 7 then (1, { wr_id := 0, status := 0, opcode := 0 })
      else if k = 8 then (1, { wr_id := 7, status := 0, opcode := 128 })
      else (0, { wr_id := 0, status := 0, opcode := 0 }) }

/-- A transport whose second poll fails: the first poll returns the completion of a
send, the second returns the error code -1, the third finds the queue empty. -/
def env_poll_error : Transport :=
  { env_ok with
    ibv_poll_cq := fun k =>
      if k = 0 then (1, { wr_id := 0, status := 0, opcode := 0 })
      else if k = 1 then (-1, { wr_id := 99, status := 99, opcode := 99 })
      else (0, { wr_id := 0, status := 0, opcode := 0 }) }

/-- A process whose context has been built for device 1 and which holds the identifier
50 of a request that arrived on device 2. -/
def other_device_state : State :=
  built_state 1 (start_state 2 [50])

/-- The event kind is none of the three that `on_event` handles. -/
def unknown_kind (event : rdma_cm_event) : Prop :=
  event.event ≠ RDMA_CM_EVENT_CONNECT_REQUEST ∧ event.event ≠ RDMA_CM_EVENT_ESTABLISHED ∧
  event.event ≠ RDMA_CM_EVENT_DISCONNECTED

/-- The event is a connect request on a device other than the one of the context
already built: the case that `build_context` refuses. -/
def other_device (event : rdma_cm_event) (s : State) : Prop :=
  event.event = RDMA_CM_EVENT_CONNECT_REQUEST ∧
  ∃ c, s.s_ctx = some c ∧ c.ctx ≠ (s.ids event.id).verbs

/-- The state in which `on_disconnect` leaves a process in which the connection of `id`
was set up. -/
def disconnected_state (s : State) (id : Nat) : State :=
  { s with
    live_ids := upd s.live_ids id false
    live_qps := upd s.live_qps (s.ids id).qp false
    live_mrs := upd (upd s.live_mrs (s.conns (s.ids id).context).send_mr false)
      (s.conns (s.ids id).context).recv_mr false
    live_heap := upd (upd (upd s.live_heap (s.conns (s.ids id).context).send_region false)
      (s.conns (s.ids id).context).recv_region false) (s.ids id).context false
    stale_releases :=
      s.stale_releases ++ (if s.live_ids id then [] else [.rdma_destroy_id id])
    trace := s.trace ++ disconnect_effects s id }

/-- The six handles that the connection of `id` owns: queue pair, the two
registrations, the two buffers, the record. -/
def handles (s : State) (id : Nat) : List Nat :=
  [(s.ids id).qp, (s.conns (s.ids id).context).send_mr,
   (s.conns (s.ids id).context).recv_mr, (s.conns (s.ids id).context).send_region,
   (s.conns (s.ids id).context).recv_region, (s.ids id).context]

/-- The states `s` and `t` hold the same connection for `id`, with the same liveness of
what it owns. -/
structure AgreeOn (s t : State) (id : Nat) : Prop where
  ids_eq : t.ids id = s.ids id
  conns_eq : t.conns (s.ids id).context = s.conns (s.ids id).context
  qp_eq : t.live_qps (s.ids id).qp = s.live_qps (s.ids id).qp
  send_mr_eq : t.live_mrs (s.conns (s.ids id).context).send_mr =
    s.live_mrs (s.conns (s.ids id).context).send_mr
  recv_mr_eq : t.live_mrs (s.conns (s.ids id).context).recv_mr =
    s.live_mrs (s.conns (s.ids id).context).recv_mr
  send_region_eq : t.live_heap (s.conns (s.ids id).context).send_region =
    s.live_heap (s.conns (s.ids id).context).send_region
  recv_region_eq : t.live_heap (s.conns (s.ids id).context).recv_region =
    s.live_heap (s.conns (s.ids id).context).recv_region
  record_eq : t.live_heap (s.ids id).context = s.live_heap (s.ids id).context

/-- The invariant of the event loop: no stale release has happened, and the connections
of the identifiers in `opened` are set up, live, made of handles already handed out, and
own pairwise different handles. -/
structure Inv (s : State) (opened : List Nat) : Prop where
  no_stale : s.stale_releases = []
  nodup : opened.Nodup
  live : ∀ id ∈ opened, s.live_ids id = true
  connected : ∀ id ∈ opened, Connected s id
  below : ∀ id ∈ opened, ∀ h ∈ handles s id, h ≤ s.next
  separate : ∀ id1 ∈ opened, ∀ id2 ∈ opened, id1 ≠ id2 →
    ∀ h ∈ handles s id1, h ∉ handles s id2

/-- The events respect the life cycle of the connections: a connect request comes for an
identifier that had none before (`seen` lists those that had one), and a disconnected
event comes for an identifier whose connection is open (`opened` lists those), so at
most once for each connect request. -/
def sequenced : List Nat → List Nat → List rdma_cm_event → Bool
  | _, _, [] => true
  | opened, seen, event :: rest =>
    if event.event = RDMA_CM_EVENT_CONNECT_REQUEST then
      decide (event.id ∉ seen) && sequenced (event.id :: opened) (event.id :: seen) rest
    else if event.event = RDMA_CM_EVENT_DISCONNECTED then
      decide (event.id ∈ opened) && sequenced (opened.erase event.id) seen rest
    else sequenced opened seen rest

/-- The effects of the loop of `main` that deliver an event. -/
def delivery (event : rdma_cm_event) : List Effect :=
  [.rdma_get_cm_event (some event), .rdma_ack_cm_event event]

/-- The process after the connect request for the identifier 50 has been accepted. -/
def once_connected : State :=
  accepted_state env_ok 50
    (built_state 1 (((start_state 1 [50]).log (delivery { event := 4, id := 50 })).log
      [request_line]))

/-- The process after the first disconnected event for the identifier 50. -/
def once_disconnected : State :=
  disconnected_state (once_connected.log (delivery { event := 10, id := 50 })) 50

/-- Whether an effect is one of the three notification calls of `poll_cq`: waiting for a
notification, acknowledging it, re-arming the queue. -/
def Effect.is_notify : Effect → Bool
  | .ibv_get_cq_event _ _ _ => true
  | .ibv_ack_cq_events _ _ => true
  | .ibv_req_notify_cq _ _ _ => true
  | _ => false

/-- What the trace says about the releases so far: no release call is repeated; what has
been deregistered or freed is a handle already handed out and no longer live; and a
queue pair or an identifier has been destroyed only for identifiers that had a connect
request and whose connection is no longer open. -/
structure Released (s : State) (opened seen : List Nat) : Prop where
  nodup : (s.trace.filter Effect.is_release).Nodup
  mrs : ∀ m, Effect.ibv_dereg_mr m ∈ s.trace → s.live_mrs m = false ∧ m ≤ s.next
  heap : ∀ p, Effect.free p ∈ s.trace → s.live_heap p = false ∧ p ≤ s.next
  qps : ∀ i, Effect.rdma_destroy_qp i ∈ s.trace → i ∈ seen ∧ i ∉ opened
  ids : ∀ i, Effect.rdma_destroy_id i ∈ s.trace → i ∈ seen ∧ i ∉ opened

/-- The connection of `id` is set up for sending in `s`, as `on_connect_request` leaves
it: it is set up, its send buffer has `BUFFER_SIZE` bytes, and its send registration
registers that buffer with that length. -/
structure Sendable (s : State) (id : Nat) : Prop where
  connected : Connected s id
  send_region_size : (s.mem (s.conns (s.ids id).context).send_region).length = BUFFER_SIZE
  send_mr_addr : (s.mrs (s.conns (s.ids id).context).send_mr).addr =
    (s.conns (s.ids id).context).send_region
  send_mr_length : (s.mrs (s.conns (s.ids id).context).send_mr).length = BUFFER_SIZE

@[simp] theorem bind_run {α β : Type} (m : Prog α) (f : α → Prog β) (s : State) :
    (m >>= f) s = (m s).bind f := rfl

@[simp] theorem pure_run {α : Type} (a : α) (s : State) :
    (pure a : Prog α) s = .returned a s := rfl

@[simp] theorem Outcome.bind_returned {α β : Type} (a : α) (s : State)
    (f : α → State → Outcome β) : (Outcome.returned a s).bind f = f a s := rfl

@[simp] theorem Outcome.bind_exited {α β : Type} (s : State)
    (f : α → State → Outcome β) : (Outcome.exited s : Outcome α).bind f = .exited s := rfl

theorem Outcome.bind_pure_run {α : Type} (o : Outcome α) :
    o.bind (fun a s => Outcome.returned a s) = o := by
  cases o <;> rfl

theorem Outcome.bind_bind {α β γ : Type} (o : Outcome α) (f : α → State → Outcome β)
    (g : β → State → Outcome γ) :
    (o.bind f).bind g = o.bind (fun a s => (f a s).bind g) := by
  cases o <;> rfl

instance : LawfulMonad Prog :=
  LawfulMonad.mk' Prog
    (fun x => funext fun s => Outcome.bind_pure_run (x s))
    (fun _ _ => rfl)
    (fun x _ _ => funext fun s => Outcome.bind_bind (x s) _ _)

@[simp] theorem Outcome.bind_pure_fun {α : Type} (o : Outcome α) :
    o.bind (fun a => (pure a : Prog α)) = o := Outcome.bind_pure_run o

@[simp] theorem Outcome.state_returned {α : Type} (a : α) (s : State) :
    (Outcome.returned a s).state = s := rfl

@[simp] theorem Outcome.state_exited {α : Type} (s : State) :
    (Outcome.exited s : Outcome α).state = s := rfl

@[simp] theorem upd_apply {β : Type} (f : Nat → β) (k : Nat) (v : β) (j : Nat) :
    upd f k v j = if j = k then v else f j := rfl

@[simp] theorem map_run {α β : Type} (f : α → β) (m : Prog α) (s : State) :
    (f <$> m) s = (m s).bind (fun a s1 => .returned (f a) s1) := rfl

/-! ## on_completion, post_receives, on_connection -/

theorem die_run {α : Type} (reason : String) (s : State) :
    (die reason : Prog α) s = .exited (s.log (die_effects reason)) := rfl

theorem on_completion_failed (wc : ibv_wc) (s : State) (h : wc.status ≠ IBV_WC_SUCCESS) :
    on_completion wc s =
      .exited (s.log (die_effects "on_completion: status is not IBV_WC_SUCCESS.")) := by
  simp [on_completion, h, die, die_effects, State.log]

theorem c_string_terminated (l r : List Nat) (h : ∀ b ∈ l, b ≠ 0) :
    c_string (l ++ 0 :: r) = some l := by
  have hw : (l ++ 0 :: r).takeWhile (fun b => b != 0) = l := by
    induction l with
    | nil => simp
    | cons a l ih =>
      have ha : a ≠ 0 := h a (List.mem_cons_self a l)
      have := ih (fun b hb => h b (List.mem_cons_of_mem a hb))
      simp [ha] at this ⊢
      exact this
  simp [c_string, hw]

/-- Whether the connection of `id` is set up depends on the records and on the liveness
maps only. -/
theorem Connected.same_records {s t : State} {id : Nat} (h : Connected s id)
    (h1 : t.ids = s.ids) (h2 : t.conns = s.conns) (h3 : t.live_qps = s.live_qps)
    (h4 : t.live_mrs = s.live_mrs) (h5 : t.live_heap = s.live_heap) : Connected t id := by
  obtain ⟨a1, a2, a3, a4, a5, a6, a7, a8, a9, a10⟩ := h
  constructor <;> (simp only [h1, h2, h3, h4, h5]; assumption)

theorem on_completion_recv (wc : ibv_wc) (s : State) (h : wc.status = IBV_WC_SUCCESS)
    (hr : wc.opcode &&& IBV_WC_RECV ≠ 0) :
    on_completion wc s = .returned () (s.log [.printf "received message: %s\n"
        [format_s s (s.conns wc.wr_id).recv_region]]) := by
  simp [on_completion, h, hr, printf, emit, get_state, State.log]

theorem on_completion_send (wc : ibv_wc) (s : State) (h : wc.status = IBV_WC_SUCCESS)
    (hs : wc.opcode = IBV_WC_SEND) :
    on_completion wc s =
      .returned () (s.log [.printf "send completed successfully.\n" []]) := by
  have hr : IBV_WC_SEND &&& IBV_WC_RECV = 0 := by decide
  simp [on_completion, h, hr, hs, printf, emit, State.log]

theorem on_completion_other (wc : ibv_wc) (s : State) (h : wc.status = IBV_WC_SUCCESS)
    (hr : wc.opcode &&& IBV_WC_RECV = 0) (hs : wc.opcode ≠ IBV_WC_SEND) :
    on_completion wc s = .returned () s := by
  simp [on_completion, h, hr, hs]

theorem on_connection_run (env : Transport) (conn : Nat) (s : State) :
    on_connection env conn s =
      if env.ibv_post_send (s.clock + 1) = 0 then .returned 0 (posted_state env conn s)
      else .exited ((posted_state env conn s).log
        (die_effects "error: ibv_post_send(conn->qp, &wr, &bad_wr) failed (returned non-zero).")) := by
  by_cases h : env.ibv_post_send (s.clock + 1) = 0 <;>
    simp [on_connection, get_state, getpid, snprintf, printf, emit, ibv_post_send, BUFFER_SIZE,
      TEST_NZ, h, die, die_effects, posted_state, send_wr, greeting, State.log, payload, stored,
      greeted_buffer]

@[simp] theorem upd_upd {β : Type} (f : Nat → β) (k : Nat) (a b : β) :
    upd (upd f k a) k b = upd f k b := by
  funext j
  simp only [upd_apply]
  split <;> rfl

/-! ## build_context -/

theorem Quiet.refl (s : State) : Quiet s s :=
  ⟨rfl, [], by simp, by simp⟩

theorem Quiet.trans {a b c : State} (h1 : Quiet a b) (h2 : Quiet b c) : Quiet a c := by
  obtain ⟨hs1, l1, ht1, hl1⟩ := h1
  obtain ⟨hs2, l2, ht2, hl2⟩ := h2
  refine ⟨hs2.trans hs1, l1 ++ l2, by rw [ht2, ht1, List.append_assoc], ?_⟩
  intro e he
  rcases List.mem_append.mp he with h | h
  · exact hl1 e h
  · exact hl2 e h

theorem build_context_same (env : Transport) (v : Nat) (s : State) (c : context)
    (hc : s.s_ctx = some c) (hv : c.ctx = v) : build_context env v s = .returned () s := by
  simp [build_context, hc, hv]

theorem build_context_other (env : Transport) (v : Nat) (s : State) (c : context)
    (hc : s.s_ctx = some c) (hv : c.ctx ≠ v) :
    build_context env v s =
      .exited (s.log (die_effects "cannot handle events in more than one context.")) := by
  simp [build_context, hc, hv, die, die_effects, State.log]

theorem build_context_fresh (env : Transport) (v : Nat) (s : State) (hc : s.s_ctx = none) :
    (env.build_ok s.clock ∧ build_context env v s = .returned () (built_state v s)) ∨
    (¬ env.build_ok s.clock ∧ ∃ t, build_context env v s = .exited t ∧ Quiet s t) := by
  unfold build_context Transport.build_ok
  rw [hc]
  cases h1 : env.ibv_alloc_pd s.clock with
  | false =>
    right
    simp [malloc, s_ctx_assign, get_state, ibv_alloc_pd, s_ctx_deref, die, TEST_Z, h1, Quiet,
      Effect.is_accept, Effect.is_release]
  | true =>
  cases h2 : env.ibv_create_comp_channel (s.clock + 1) with
  | false =>
    right
    simp [malloc, s_ctx_assign, get_state, ibv_alloc_pd, s_ctx_deref, die, TEST_Z, h1, h2, Quiet,
      ibv_create_comp_channel, Effect.is_accept, Effect.is_release]
  | true =>
  cases h3 : env.ibv_create_cq (s.clock + 2) with
  | false =>
    right
    simp [malloc, s_ctx_assign, get_state, ibv_alloc_pd, s_ctx_deref, die, TEST_Z, h1, h2, h3,
      Quiet, ibv_create_comp_channel, ibv_create_cq, Effect.is_accept, Effect.is_release]
  | true =>
  by_cases h4 : env.ibv_req_notify_cq (s.clock + 3) = 0
  swap
  · right
    simp [malloc, s_ctx_assign, get_state, ibv_alloc_pd, s_ctx_deref, die, TEST_Z, TEST_NZ,
      h1, h2, h3, h4, Quiet, ibv_create_comp_channel, ibv_create_cq, ibv_req_notify_cq,
      Effect.is_accept, Effect.is_release]
  by_cases h5 : env.pthread_create (s.clock + 4) = 0
  swap
  · right
    simp [malloc, s_ctx_assign, get_state, ibv_alloc_pd, s_ctx_deref, die, TEST_Z, TEST_NZ,
      h1, h2, h3, h4, h5, Quiet, ibv_create_comp_channel, ibv_create_cq, ibv_req_notify_cq,
      pthread_create, Effect.is_accept, Effect.is_release]
  left
  simp [malloc, s_ctx_assign, get_state, ibv_alloc_pd, s_ctx_deref, die, TEST_Z, TEST_NZ,
    h1, h2, h3, h4, h5, ibv_create_comp_channel, ibv_create_cq, ibv_req_notify_cq,
    pthread_create, built_state, build_effects]

/-! ## on_connect_request -/

theorem on_connect_request_split (env : Transport) (id : Nat) (s : State) :
    on_connect_request env id s =
      (build_context env (s.ids id).verbs
        (s.log [.printf "received connection request.\n" []])).bind
        (fun _ => on_connect_request_tail env id) := rfl

theorem on_connect_request_tail_outcome (env : Transport) (id : Nat) (sb : State) :
    (env.setup_ok sb.clock ∧ on_connect_request_tail env id sb =
        if env.rdma_accept (sb.clock + 4) = 0 then .returned 0 (accepted_state env id sb)
        else .exited ((accepted_state env id sb).log
          (die_effects "error: rdma_accept(id, &cm_params) failed (returned non-zero)."))) ∨
    (¬ env.setup_ok sb.clock ∧ ∃ t, on_connect_request_tail env id sb = .exited t ∧ Quiet sb t) := by
  unfold Transport.setup_ok
  by_cases h1 : env.rdma_create_qp sb.clock = 0
  swap
  · right
    simp [on_connect_request_tail, build_qp_attr, rdma_create_qp, get_state, TEST_NZ, h1, die,
      Quiet, Effect.is_accept, Effect.is_release]
  cases h2 : env.ibv_reg_mr (sb.clock + 1) with
  | none =>
    right
    simp [on_connect_request_tail, build_qp_attr, rdma_create_qp, get_state, TEST_NZ, h1, die,
      malloc, conn_assign, register_memory, ibv_reg_mr, h2, TEST_Z, Quiet, Effect.is_accept, Effect.is_release]
  | some k1 =>
  cases h3 : env.ibv_reg_mr (sb.clock + 2) with
  | none =>
    right
    simp [on_connect_request_tail, build_qp_attr, rdma_create_qp, get_state, TEST_NZ, h1, die,
      malloc, conn_assign, register_memory, ibv_reg_mr, h2, h3, TEST_Z, Quiet, Effect.is_accept, Effect.is_release]
  | some k2 =>
  by_cases h4 : env.ibv_post_recv (sb.clock + 3) = 0
  swap
  · right
    simp [on_connect_request_tail, build_qp_attr, rdma_create_qp, get_state, TEST_NZ, h1, die,
      malloc, conn_assign, register_memory, ibv_reg_mr, h2, h3, h4, TEST_Z, Quiet,
      post_receives, ibv_post_recv, Effect.is_accept, Effect.is_release]
  left
  by_cases h5 : env.rdma_accept (sb.clock + 4) = 0 <;>
  simp [on_connect_request_tail, build_qp_attr, rdma_create_qp, get_state, TEST_NZ, h1, die,
      malloc, conn_assign, register_memory, ibv_reg_mr, h2, h3, h4, h5, TEST_Z,
      post_receives, ibv_post_recv, rdma_accept, accepted_state, setup_effects, qp_attr_of,
      Transport.lkey, State.log, die_effects, s_ctx_deref]

theorem Quiet.of_log (s : State) (l : List Effect)
    (h : ∀ e ∈ l, e.is_accept = false ∧ e.is_release = false) :
    Quiet s (s.log l) :=
  ⟨rfl, l, rfl, h⟩

theorem built_state_quiet (v : Nat) (s : State) : Quiet s (built_state v s) := by
  refine ⟨rfl, build_effects v s, rfl, ?_⟩
  simp [build_effects, Effect.is_accept, Effect.is_release]

/-- How a call of `build_context` that returns has gone. -/
theorem build_context_returned (env : Transport) (v : Nat) (s sb : State)
    (h : build_context env v s = .returned () sb) :
    (sb = s ∧ ∃ c, s.s_ctx = some c ∧ c.ctx = v) ∨
    (s.s_ctx = none ∧ env.build_ok s.clock ∧ sb = built_state v s) := by
  cases hc : s.s_ctx with
  | some c =>
    by_cases hv : c.ctx = v
    · left
      rw [build_context_same env v s c hc hv] at h
      injection h with _ h2
      exact ⟨h2.symm, c, rfl, hv⟩
    · rw [build_context_other env v s c hc hv] at h
      cases h
  | none =>
    right
    rcases build_context_fresh env v s hc with ⟨hok, hrun⟩ | ⟨_, t, hrun, _⟩
    · rw [hrun] at h
      injection h with _ h2
      exact ⟨rfl, hok, h2.symm⟩
    · rw [hrun] at h
      cases h

/-- A call of `build_context`, however it ends, sends no accept and makes no stale
release. -/
theorem build_context_quiet (env : Transport) (v : Nat) (s : State) :
    Quiet s (build_context env v s).state := by
  cases hc : s.s_ctx with
  | some c =>
    by_cases hv : c.ctx = v
    · rw [build_context_same env v s c hc hv]
      exact Quiet.refl s
    · rw [build_context_other env v s c hc hv]
      apply Quiet.of_log
      simp [die_effects, Effect.is_accept, Effect.is_release]
  | none =>
    rcases build_context_fresh env v s hc with ⟨_, hrun⟩ | ⟨_, t, hrun, hq⟩
    · rw [hrun]
      exact built_state_quiet v s
    · rw [hrun]
      exact hq

/-- How a call of `on_connect_request` goes: either every step up to the call of
`rdma_accept` succeeds, or the process ends without a call of `rdma_accept`. -/
theorem on_connect_request_outcome (env : Transport) (id : Nat) (s : State) :
    (∃ sb, build_context env (s.ids id).verbs
          (s.log [.printf "received connection request.\n" []]) = .returned () sb ∧
        env.setup_ok sb.clock ∧
        on_connect_request env id s =
          if env.rdma_accept (sb.clock + 4) = 0 then .returned 0 (accepted_state env id sb)
          else .exited ((accepted_state env id sb).log
            (die_effects "error: rdma_accept(id, &cm_params) failed (returned non-zero)."))) ∨
    (∃ t, on_connect_request env id s = .exited t ∧ Quiet s t) := by
  rw [on_connect_request_split]
  have hq0 : Quiet s (s.log [.printf "received connection request.\n" []]) := by
    apply Quiet.of_log
    simp [Effect.is_accept, Effect.is_release]
  have hq := build_context_quiet env (s.ids id).verbs
    (s.log [.printf "received connection request.\n" []])
  cases hb : build_context env (s.ids id).verbs
      (s.log [.printf "received connection request.\n" []]) with
  | exited t =>
    right
    rw [hb] at hq
    exact ⟨t, rfl, hq0.trans hq⟩
  | returned u sb =>
    rw [hb] at hq
    rcases on_connect_request_tail_outcome env id sb with ⟨hok, hrun⟩ | ⟨_, t, hrun, hqt⟩
    · left
      exact ⟨sb, rfl, hok, hrun⟩
    · right
      exact ⟨t, hrun, (hq0.trans hq).trans hqt⟩

/-- How a call of `on_connect_request` that returns has gone. -/
theorem on_connect_request_returned (env : Transport) (id : Nat) (s s1 : State) (r : Int)
    (h : on_connect_request env id s = .returned r s1) :
    r = 0 ∧ ∃ sb, build_context env (s.ids id).verbs
        (s.log [.printf "received connection request.\n" []]) = .returned () sb ∧
      env.setup_ok sb.clock ∧ env.rdma_accept (sb.clock + 4) = 0 ∧
      s1 = accepted_state env id sb := by
  rcases on_connect_request_outcome env id s with ⟨sb, hb, hok, hrun⟩ | ⟨t, hrun, _⟩
  · rw [hrun] at h
    by_cases ha : env.rdma_accept (sb.clock + 4) = 0
    · rw [if_pos ha] at h
      injection h with h1 h2
      exact ⟨h1.symm, sb, hb, hok, ha, h2.symm⟩
    · rw [if_neg ha] at h
      cases h
  · rw [hrun] at h
    cases h

/-! ## Properties of build_context and on_completion -/

/-- C2. `build_context` is idempotent per device.  After a `build_context(d)` that
returned (from the empty context it has built the context for `d` and started the
poller), a second `build_context(d)` returns with the whole process state unchanged: the
stored context is the same, nothing is allocated, no library call is made and no second
poller is started.  A `build_context(d2)` for a different device `d2` ends the process
with the diagnostic of `die`, and the stored context in the final state is the one that
was there before. -/
theorem build_context_idempotent (env : Transport) (d : Nat) (s s1 : State)
    (h : build_context env d s = .returned () s1) :
    (∃ c, s1.s_ctx = some c ∧ c.ctx = d) ∧
    (s.s_ctx = none → s1 = built_state d s) ∧
    (∀ env2 : Transport, build_context env2 d s1 = .returned () s1) ∧
    (∀ (env2 : Transport) (d2 : Nat), d2 ≠ d →
      build_context env2 d2 s1 =
        .exited (s1.log (die_effects "cannot handle events in more than one context.")) ∧
      (build_context env2 d2 s1).state.s_ctx = s1.s_ctx) := by
  have key : ∃ c, s1.s_ctx = some c ∧ c.ctx = d := by
    rcases build_context_returned env d s s1 h with ⟨hs, c, hc, hv⟩ | ⟨_, _, hs⟩
    · exact ⟨c, by rw [hs]; exact hc, hv⟩
    · exact ⟨_, by rw [hs]; rfl, rfl⟩
  obtain ⟨c, hc, hv⟩ := key
  refine ⟨⟨c, hc, hv⟩, ?_, ?_, ?_⟩
  · intro hnone
    rcases build_context_returned env d s s1 h with ⟨_, c2, hc2, _⟩ | ⟨_, _, hs⟩
    · rw [hnone] at hc2
      cases hc2
    · exact hs
  · intro env2
    exact build_context_same env2 d s1 c hc hv
  · intro env2 d2 hd
    have hne : c.ctx ≠ d2 := by
      rw [hv]
      exact fun e => hd e.symm
    rw [build_context_other env2 d2 s1 c hc hne]
    exact ⟨rfl, rfl⟩

theorem build_context_start (v : Nat) (ids : List Nat) :
    build_context env_ok v (start_state v ids) = .returned () (built_state v (start_state v ids)) := by
  rcases build_context_fresh env_ok v (start_state v ids) rfl with ⟨_, h⟩ | ⟨hn, _⟩
  · exact h
  · exact absurd (by simp [Transport.build_ok, env_ok]) hn

/-- Witness of C2: the first `build_context(1)` of the process, then a second one, then
one for device 2. -/
theorem build_context_idempotent_witness :
    build_context env_ok 1 (start_state 1 []) = .returned () (built_state 1 (start_state 1 [])) ∧
    build_context env_ok 1 (built_state 1 (start_state 1 [])) =
      .returned () (built_state 1 (start_state 1 [])) ∧
    (build_context env_ok 2 (built_state 1 (start_state 1 []))).state.s_ctx =
      (built_state 1 (start_state 1 [])).s_ctx :=
  ⟨build_context_start 1 [],
   (build_context_idempotent env_ok 1 _ _ (build_context_start 1 [])).2.2.1 env_ok,
   ((build_context_idempotent env_ok 1 _ _ (build_context_start 1 [])).2.2.2 env_ok 2
      (by decide)).2⟩

/-- C5. A work completion whose status is not `IBV_WC_SUCCESS` ends the process:
`on_completion` exits, and all it has done is the diagnostic of `die` (no received-message
line, no send-completed line, no other change of the state).  The outcome does not depend
on the opcode or the tag of the completion, nor on any connection or buffer.  In the drain
loop of `poll_cq`, a poll that returns such a completion ends the loop with the process
exited: no further poll is made. -/
theorem on_completion_failure_fatal (wc : ibv_wc) (s : State)
    (h : wc.status ≠ IBV_WC_SUCCESS) :
    on_completion wc s =
      .exited (s.log (die_effects "on_completion: status is not IBV_WC_SUCCESS.")) ∧
    (∀ wc2 : ibv_wc, wc2.status = wc.status → on_completion wc2 s = on_completion wc s) ∧
    (∀ s2 : State, s2.trace = s.trace →
      (on_completion wc s2).state.trace = (on_completion wc s).state.trace) ∧
    (∀ (env : Transport) (cq fuel : Nat) (wc0 : ibv_wc) (s0 : State) (r : Int),
      env.ibv_poll_cq s0.clock = (r, wc) → 0 < r →
      poll_cq_drain env cq (fuel + 1) wc0 s0 =
        some (.exited ((polled_state cq r wc s0).log
          (die_effects "on_completion: status is not IBV_WC_SUCCESS.")))) := by
  refine ⟨on_completion_failed wc s h, ?_, ?_, ?_⟩
  · intro wc2 h2
    rw [on_completion_failed wc s h, on_completion_failed wc2 s (by rw [h2]; exact h)]
  · intro s2 h2
    rw [on_completion_failed wc s h, on_completion_failed wc s2 h]
    simp [State.log, h2]
  · intro env cq fuel wc0 s0 r hp hr
    have hr0 : r ≠ 0 := by omega
    simp [poll_cq_drain, ibv_poll_cq, hp, hr, hr0, polled_state]
    rw [on_completion_failed _ _ h]

/-- Witness of C5: a flushed receive (status 5) with the tag of no connection. -/
theorem on_completion_failure_fatal_witness :
    on_completion { wr_id := 99, status := 5, opcode := 128 } (start_state 1 []) =
      .exited ((start_state 1 []).log
        (die_effects "on_completion: status is not IBV_WC_SUCCESS.")) :=
  (on_completion_failure_fatal { wr_id := 99, status := 5, opcode := 128 } (start_state 1 [])
    (by decide)).1

theorem accepted_state_connected (env : Transport) (id : Nat) (sb : State) :
    Connected (accepted_state env id sb) id := by
  constructor <;> simp [accepted_state]

theorem on_disconnect_trace (id : Nat) (s : State) :
    ∃ s2, on_disconnect id s = .returned 0 s2 ∧
      s2.trace = s.trace ++ disconnect_effects s id ∧
      s2.ids = s.ids ∧ s2.conns = s.conns ∧ s2.next = s.next := by
  simp [on_disconnect, get_state, printf, emit, rdma_destroy_qp, ibv_dereg_mr, free,
    rdma_destroy_id, disconnect_effects]

theorem on_disconnect_connected (id : Nat) (s : State) (hc : Connected s id) :
    ∃ s2, on_disconnect id s = .returned 0 s2 ∧
      s2.trace = s.trace ++ disconnect_effects s id ∧
      s2.live_qps (s.ids id).qp = false ∧
      s2.live_mrs (s.conns (s.ids id).context).send_mr = false ∧
      s2.live_mrs (s.conns (s.ids id).context).recv_mr = false ∧
      s2.live_heap (s.conns (s.ids id).context).send_region = false ∧
      s2.live_heap (s.conns (s.ids id).context).recv_region = false ∧
      s2.live_heap (s.ids id).context = false ∧
      s2.live_ids id = false ∧
      s2.stale_releases =
        s.stale_releases ++ (if s.live_ids id then [] else [.rdma_destroy_id id]) := by
  obtain ⟨h1, h2, h3⟩ := hc.heap_pos
  have hq := hc.qp_live
  have hsm := hc.send_mr_live
  have hrm := hc.recv_mr_live
  have hne := hc.mr_ne
  have hsr := hc.send_region_live
  have hrr := hc.recv_region_live
  have hrec := hc.record_live
  have hnd := hc.heap_nodup
  simp at hnd
  obtain ⟨⟨hn1, hn2⟩, hn3⟩ := hnd
  by_cases hid : s.live_ids id = true <;>
  simp [on_disconnect, get_state, printf, emit, rdma_destroy_qp, ibv_dereg_mr, free,
    rdma_destroy_id, disconnect_effects, h1, h2, h3, hq, hsm, hrm, hne, Ne.symm hne, hsr, hrr,
    hrec, hn1, hn2, hn3, Ne.symm hn1, Ne.symm hn2, Ne.symm hn3, hid]

theorem Transport.AllSucceed.build_ok {env : Transport} (h : env.AllSucceed) (k : Nat) :
    env.build_ok k :=
  ⟨h.1 k, h.2.1 (k + 1), h.2.2.1 (k + 2), h.2.2.2.1 (k + 3), h.2.2.2.2.1 (k + 4)⟩

theorem Transport.AllSucceed.setup_ok {env : Transport} (h : env.AllSucceed) (k : Nat) :
    env.setup_ok k :=
  ⟨h.2.2.2.2.2.1 k, h.2.2.2.2.2.2.1 (k + 1), h.2.2.2.2.2.2.1 (k + 2),
    h.2.2.2.2.2.2.2.1 (k + 3)⟩

theorem Transport.AllSucceed.accept_ok {env : Transport} (h : env.AllSucceed) (k : Nat) :
    env.rdma_accept k = 0 :=
  h.2.2.2.2.2.2.2.2.2 k

theorem Transport.AllSucceed.post_send_ok {env : Transport} (h : env.AllSucceed) (k : Nat) :
    env.ibv_post_send k = 0 :=
  h.2.2.2.2.2.2.2.2.1 k

theorem env_ok_all_succeed : env_ok.AllSucceed := by
  simp [Transport.AllSucceed, env_ok]

/-- With every library call succeeding, `on_connect_request` returns 0 once
`build_context` has returned. -/
theorem on_connect_request_ok (env : Transport) (hall : env.AllSucceed) (id : Nat)
    (s sb : State)
    (hb : build_context env (s.ids id).verbs (s.log [request_line]) = .returned () sb) :
    on_connect_request env id s = .returned 0 (accepted_state env id sb) := by
  rw [on_connect_request_split]
  have hb2 : build_context env (s.ids id).verbs
      (s.log [.printf "received connection request.\n" []]) = .returned () sb := hb
  rw [hb2]
  rcases on_connect_request_tail_outcome env id sb with ⟨_, hrun⟩ | ⟨hn, _⟩
  · show on_connect_request_tail env id sb = _
    rw [hrun, if_pos (hall.accept_ok _)]
  · exact absurd (hall.setup_ok _) hn

theorem on_connect_request_start :
    on_connect_request env_ok 50 (start_state 1 [50]) = .returned 0 connected_state := by
  apply on_connect_request_ok env_ok env_ok_all_succeed
  rcases build_context_fresh env_ok 1 ((start_state 1 [50]).log [request_line]) rfl with
    ⟨_, h⟩ | ⟨hn, _⟩
  · exact h
  · exact absurd (env_ok_all_succeed.build_ok _) hn

/-- C3. `on_connect_request` leaves the connection of its identifier set up: queue
pair, both registrations, both buffers and the record live and distinct.  On every state
in which the connection is set up, `on_disconnect` returns 0 after exactly these effects,
in this order: the message, `rdma_destroy_qp` (the queue pair of the identifier, which is
the one in the record), `ibv_dereg_mr` of the send and of the receive registration, `free`
of the send and of the receive buffer, `free` of the record, `rdma_destroy_id`.
Afterwards none of the queue pair, the two registrations, the two buffers and the record is
live, nor the identifier, and none of the six releases hit a resource that was not
live. -/
theorem on_disconnect_releases (env : Transport) (id : Nat) (s0 s1 : State)
    (h : on_connect_request env id s0 = .returned 0 s1) :
    Connected s1 id ∧
    ∀ s : State, Connected s id →
      ∃ s2, on_disconnect id s = .returned 0 s2 ∧
        s2.trace = s.trace ++
          [.printf "peer disconnected.\n" [],
           .rdma_destroy_qp id,
           .ibv_dereg_mr (s.conns (s.ids id).context).send_mr,
           .ibv_dereg_mr (s.conns (s.ids id).context).recv_mr,
           .free (s.conns (s.ids id).context).send_region,
           .free (s.conns (s.ids id).context).recv_region,
           .free (s.ids id).context,
           .rdma_destroy_id id] ∧
        s2.live_qps (s.conns (s.ids id).context).qp = false ∧
        s2.live_mrs (s.conns (s.ids id).context).send_mr = false ∧
        s2.live_mrs (s.conns (s.ids id).context).recv_mr = false ∧
        s2.live_heap (s.conns (s.ids id).context).send_region = false ∧
        s2.live_heap (s.conns (s.ids id).context).recv_region = false ∧
        s2.live_heap (s.ids id).context = false ∧
        s2.live_ids id = false ∧
        s2.stale_releases =
          s.stale_releases ++ (if s.live_ids id then [] else [.rdma_destroy_id id]) := by
  obtain ⟨_, sb, _, _, _, hs1⟩ := on_connect_request_returned env id s0 s1 0 h
  refine ⟨by rw [hs1]; exact accepted_state_connected env id sb, ?_⟩
  intro s hc
  obtain ⟨s2, h1, h2, h3, h4⟩ := on_disconnect_connected id s hc
  refine ⟨s2, h1, h2, ?_, h4⟩
  rw [hc.qp_eq]
  exact h3

/-- Witness of C3: the disconnect of the first connection of the process. -/
theorem on_disconnect_releases_witness :
    ∃ s2, on_disconnect 50 connected_state = .returned 0 s2 ∧
      s2.trace = connected_state.trace ++
        [.printf "peer disconnected.\n" [], .rdma_destroy_qp 50, .ibv_dereg_mr 10,
         .ibv_dereg_mr 11, .free 8, .free 9, .free 7, .rdma_destroy_id 50] ∧
      s2.live_heap 7 = false ∧ s2.stale_releases = [] := by
  obtain ⟨s2, h1, h2, _, _, _, _, _, h8, _, h10⟩ :=
    (on_disconnect_releases env_ok 50 (start_state 1 [50]) connected_state
      on_connect_request_start).2 connected_state
      (on_disconnect_releases env_ok 50 (start_state 1 [50]) connected_state
        on_connect_request_start).1
  exact ⟨s2, h1, h2, h8, h10⟩

/-! ## on_connection -/

theorem dec_digits_length (n : Nat) (h : n ≤ 2147483648) : (dec_digits n).length ≤ 10 := by
  unfold dec_digits
  split
  · simp
  · rename_i hn
    have h1 := Nat.base_pow_length_digits_le 10 n (by norm_num) hn
    have h2 : 10 ^ (Nat.digits 10 n).length < 10 ^ 11 := by
      calc 10 ^ (Nat.digits 10 n).length ≤ 10 * n := h1
        _ < 10 ^ 11 := by omega
    have h3 : (Nat.digits 10 n).length < 11 := (Nat.pow_lt_pow_iff_right (by norm_num)).mp h2
    simp
    omega

theorem dec_digits_ne_zero (n : Nat) : ∀ b ∈ dec_digits n, b ≠ 0 := by
  unfold dec_digits
  split
  · simp
  · intro b hb
    simp at hb
    obtain ⟨d, _, hd⟩ := hb
    omega

theorem format_d_length (i : Int) (h : is_int i) : (format_d i).length ≤ 11 := by
  have hn : i.natAbs ≤ 2147483648 := by
    unfold is_int at h
    omega
  have := dec_digits_length i.natAbs hn
  unfold format_d
  split <;> simp <;> omega

theorem format_d_ne_zero (i : Int) : ∀ b ∈ format_d i, b ≠ 0 := by
  unfold format_d
  split
  · intro b hb
    rcases List.mem_cons.mp hb with h | h
    · omega
    · exact dec_digits_ne_zero _ b h
  · exact dec_digits_ne_zero _

theorem greeting_length (pid : Int) (h : is_int pid) : (greeting pid).length ≤ 53 := by
  have := format_d_length pid h
  have h42 : (c_bytes "message from passive/server side with pid ").length = 42 := by
    simp [c_bytes]
  simp [greeting, h42]
  omega

theorem greeting_ne_zero (pid : Int) : ∀ b ∈ greeting pid, b ≠ 0 := by
  intro b hb
  rcases List.mem_append.mp hb with h | h
  · have hall : ∀ b ∈ c_bytes "message from passive/server side with pid ", b ≠ 0 := by
      simp [c_bytes]
    exact hall b h
  · exact format_d_ne_zero pid b h

theorem accepted_state_sendable (env : Transport) (id : Nat) (sb : State) :
    Sendable (accepted_state env id sb) id :=
  ⟨accepted_state_connected env id sb, by simp [accepted_state], by simp [accepted_state],
    by simp [accepted_state]⟩

theorem stored_greeting (pid : Int) (h : is_int pid) :
    stored (greeting pid) = greeting pid ++ [0] := by
  have hlen := greeting_length pid h
  have ht : (greeting pid).take (BUFFER_SIZE - 1) = greeting pid := by
    apply List.take_of_length_le
    simp [BUFFER_SIZE]
    omega
  simp [stored, ht]

theorem greeted_buffer_eq (pid : Int) (h : is_int pid) (conn : Nat) (s : State) :
    greeted_buffer pid conn s =
      greeting pid ++ 0 :: (s.mem (s.conns conn).send_region).drop ((greeting pid).length + 1) := by
  simp [greeted_buffer, stored_greeting pid h]

theorem greeted_buffer_length (pid : Int) (h : is_int pid) (conn : Nat) (s : State)
    (hsize : (s.mem (s.conns conn).send_region).length = BUFFER_SIZE) :
    (greeted_buffer pid conn s).length = BUFFER_SIZE := by
  have hlen := greeting_length pid h
  rw [greeted_buffer_eq pid h]
  simp [hsize, BUFFER_SIZE]
  omega

/-- C8, as the code has it.  `on_connect_request` leaves the connection of its identifier
set up for sending, the trace does not affect that, and the established event hands the
record `id->context` to `on_connection`.  In every state in which the connection is set up
for sending, and for a process id in the range of `int`, `on_connection` first stores the
text "message from passive/server side with pid <pid>" and a terminating NUL at the start
of the 1024-byte send buffer, untruncated (the text has at most 53 bytes), and then calls
`ibv_post_send` once, on the queue pair of the connection, with one work request: tag 0,
opcode `IBV_WR_SEND`, flag `IBV_SEND_SIGNALED`, one scatter entry with the address of the
send buffer, length 1024 and the local key of the send registration.  The 1024 bytes that
the request addresses when it is posted are the send buffer with the text, readable back as
a C string, at its start.  No other buffer is written and no receive is posted.  When
`ibv_post_send` returns 0, `on_connection` returns 0; otherwise it ends the process
through `die`. -/
theorem on_connection_posts_greeting (env : Transport) (id : Nat) :
    (∀ (env0 : Transport) (s0 s1 : State) (r : Int),
      on_connect_request env0 id s0 = .returned r s1 → Sendable s1 id) ∧
    (∀ (s : State) (l : List Effect), Sendable s id → Sendable (s.log l) id) ∧
    (∀ s : State, on_event env { event := RDMA_CM_EVENT_ESTABLISHED, id := id } s =
      on_connection env (s.ids id).context s) ∧
    ∀ s : State, Sendable s id → is_int (env.getpid s.clock) →
      (greeting (env.getpid s.clock)).length ≤ 53 ∧
      greeted_buffer (env.getpid s.clock) (s.ids id).context s =
        greeting (env.getpid s.clock) ++ 0 ::
          (s.mem (s.conns (s.ids id).context).send_region).drop
            ((greeting (env.getpid s.clock)).length + 1) ∧
      (greeted_buffer (env.getpid s.clock) (s.ids id).context s).length = BUFFER_SIZE ∧
      c_string (greeted_buffer (env.getpid s.clock) (s.ids id).context s) =
        some (greeting (env.getpid s.clock)) ∧
      (posted_state env (s.ids id).context s).trace = s.trace ++
        [.getpid (env.getpid s.clock),
         .snprintf (s.conns (s.ids id).context).send_region BUFFER_SIZE
           (greeting (env.getpid s.clock) ++ [0]),
         .printf "connected. posting send...\n" [],
         .ibv_post_send (s.ids id).qp
           { wr_id := 0, next := 0
             sg_list := [{ addr := (s.conns (s.ids id).context).send_region
                           length := BUFFER_SIZE
                           lkey := (s.mrs (s.conns (s.ids id).context).send_mr).lkey }]
             num_sge := 1, opcode := IBV_WR_SEND, send_flags := IBV_SEND_SIGNALED }
           [greeted_buffer (env.getpid s.clock) (s.ids id).context s]
           (env.ibv_post_send (s.clock + 1))] ∧
      (posted_state env (s.ids id).context s).mem (s.conns (s.ids id).context).send_region =
        greeted_buffer (env.getpid s.clock) (s.ids id).context s ∧
      (∀ p, p ≠ (s.conns (s.ids id).context).send_region →
        (posted_state env (s.ids id).context s).mem p = s.mem p) ∧
      (env.ibv_post_send (s.clock + 1) = 0 →
        on_connection env (s.ids id).context s =
          .returned 0 (posted_state env (s.ids id).context s)) ∧
      (env.ibv_post_send (s.clock + 1) ≠ 0 →
        on_connection env (s.ids id).context s =
          .exited ((posted_state env (s.ids id).context s).log (die_effects
            "error: ibv_post_send(conn->qp, &wr, &bad_wr) failed (returned non-zero)."))) := by
  refine ⟨?_, ?_, ?_, ?_⟩
  · intro env0 s0 s1 r h
    obtain ⟨_, sb, _, _, _, hs1⟩ := on_connect_request_returned env0 id s0 s1 r h
    rw [hs1]
    exact accepted_state_sendable env0 id sb
  · intro s l h
    exact ⟨h.connected.same_records rfl rfl rfl rfl rfl, h.send_region_size, h.send_mr_addr,
      h.send_mr_length⟩
  · intro s
    simp [on_event, RDMA_CM_EVENT_ESTABLISHED, RDMA_CM_EVENT_CONNECT_REQUEST, get_state]
  · intro s hs hpid
    have hbuf := greeted_buffer_eq (env.getpid s.clock) hpid (s.ids id).context s
    have hlen := greeted_buffer_length (env.getpid s.clock) hpid (s.ids id).context s
      hs.send_region_size
    refine ⟨greeting_length _ hpid, hbuf, hlen, ?_, ?_, ?_, ?_, ?_, ?_⟩
    · rw [hbuf]
      exact c_string_terminated _ _ (greeting_ne_zero _)
    · have htake : (greeted_buffer (env.getpid s.clock) (s.ids id).context s).take BUFFER_SIZE =
          greeted_buffer (env.getpid s.clock) (s.ids id).context s :=
        List.take_of_length_le (le_of_eq hlen)
      simp [posted_state, send_wr, hs.connected.qp_eq, htake, stored_greeting _ hpid]
    · simp [posted_state]
    · intro p hp
      simp [posted_state, hp]
    · intro hr
      rw [on_connection_run, if_pos hr]
    · intro hr
      rw [on_connection_run, if_neg hr]

/-- Witness of C8: the greeting of process 4242 on the first connection. -/
theorem on_connection_posts_greeting_witness :
    Sendable connected_state 50 ∧
    on_connection env_ok (connected_state.ids 50).context connected_state =
      .returned 0 (posted_state env_ok (connected_state.ids 50).context connected_state) ∧
    c_string (greeted_buffer (env_ok.getpid connected_state.clock)
      (connected_state.ids 50).context connected_state) =
        some (greeting (env_ok.getpid connected_state.clock)) :=
  ⟨(on_connection_posts_greeting env_ok 50).1 env_ok _ _ 0 on_connect_request_start,
   ((on_connection_posts_greeting env_ok 50).2.2.2 connected_state
      ((on_connection_posts_greeting env_ok 50).1 env_ok _ _ 0 on_connect_request_start)
      (by simp [is_int, env_ok])).2.2.2.2.2.2.2.1 rfl,
   ((on_connection_posts_greeting env_ok 50).2.2.2 connected_state
      ((on_connection_posts_greeting env_ok 50).1 env_ok _ _ 0 on_connect_request_start)
      (by simp [is_int, env_ok])).2.2.2.1⟩

/-- Counterexample to C8 as stated: on a connection set up by `on_connect_request`,
with a transport that refuses the send, `on_connection` does not return. -/
theorem on_connection_counterexample :
    on_connect_request env_ok 50 (start_state 1 [50]) = .returned 0 connected_state ∧
    is_int (env_post_send_fails.getpid connected_state.clock) ∧
    ¬ ∃ s2, on_connection env_post_send_fails (connected_state.ids 50).context
        connected_state = .returned 0 s2 := by
  refine ⟨on_connect_request_start, by simp [is_int, env_post_send_fails, env_ok], ?_⟩
  rw [on_connection_run]
  simp [env_post_send_fails]

/-! ## poll_cq -/

theorem poll_cq_notify_run (env : Transport) (s : State)
    (hget : (env.ibv_get_cq_event s.clock).1 = 0) :
    poll_cq_notify env s =
      if env.ibv_req_notify_cq (s.clock + 1) = 0 then
        .returned (env.ibv_get_cq_event s.clock).2 (notified_state env s)
      else .exited ((notified_state env s).log
        (die_effects "error: ibv_req_notify_cq(cq, 0) failed (returned non-zero).")) := by
  by_cases h : env.ibv_req_notify_cq (s.clock + 1) = 0 <;>
    simp [poll_cq_notify, get_state, ibv_get_cq_event, TEST_NZ, hget, ibv_ack_cq_events, emit,
      ibv_req_notify_cq, h, notified_state, die, die_effects, State.log]

theorem State.log_nil (s : State) : s.log [] = s := by
  cases s
  simp [State.log]

/-- `on_completion` does nothing but append to the trace, and what it appends is neither
a poll nor a notification call. -/
theorem on_completion_appends (wc : ibv_wc) (s : State) :
    ∃ l, (∀ e ∈ l, e.poll_result = none ∧ e.is_notify = false) ∧
      ((wc.status = IBV_WC_SUCCESS ∧ on_completion wc s = .returned () (s.log l)) ∨
       (wc.status ≠ IBV_WC_SUCCESS ∧ on_completion wc s = .exited (s.log l))) := by
  by_cases h : wc.status = IBV_WC_SUCCESS
  · by_cases hr : wc.opcode &&& IBV_WC_RECV = 0
    · by_cases hs : wc.opcode = IBV_WC_SEND
      · exact ⟨_, by simp [Effect.poll_result, Effect.is_notify],
          Or.inl ⟨h, on_completion_send wc s h hs⟩⟩
      · refine ⟨[], by simp, Or.inl ⟨h, ?_⟩⟩
        rw [on_completion_other wc s h hr hs, State.log_nil]
    · exact ⟨_, by simp [Effect.poll_result, Effect.is_notify],
        Or.inl ⟨h, on_completion_recv wc s h hr⟩⟩
  · exact ⟨_, by simp [Effect.poll_result, Effect.is_notify, die_effects],
      Or.inr ⟨h, on_completion_failed wc s h⟩⟩

theorem poll_cq_drain_step_ready (env : Transport) (cq fuel : Nat) (wc0 w : ibv_wc)
    (s : State) (hp : env.ibv_poll_cq s.clock = (1, w)) :
    poll_cq_drain env cq (fuel + 1) wc0 s =
      match on_completion w (polled_state cq 1 w s) with
      | .returned _ s2 => poll_cq_drain env cq fuel w s2
      | .exited s2 => some (.exited s2) := by
  simp only [poll_cq_drain, ibv_poll_cq, hp, polled_state]
  simp only [one_ne_zero, ne_eq, not_false_eq_true, if_true, zero_lt_one]

theorem poll_cq_drain_step_empty (env : Transport) (cq fuel : Nat) (wc0 : ibv_wc)
    (s : State) (hp : (env.ibv_poll_cq s.clock).1 = 0) :
    poll_cq_drain env cq (fuel + 1) wc0 s = some (.returned wc0 (polled_state cq 0 wc0 s)) := by
  simp [poll_cq_drain, ibv_poll_cq, hp, polled_state]

/-- The drain loop refines `drain_in_order`. -/
theorem poll_cq_drain_in_order (env : Transport) (cq : Nat) (wcs : List ibv_wc) :
    ∀ (fuel : Nat) (wc0 : ibv_wc) (s : State),
      (∀ i w, wcs[i]? = some w → env.ibv_poll_cq (s.clock + i) = (1, w)) →
      (env.ibv_poll_cq (s.clock + wcs.length)).1 = 0 →
      wcs.length < fuel →
      poll_cq_drain env cq fuel wc0 s = some (drain_in_order cq wcs wc0 s) := by
  induction wcs with
  | nil =>
    intro fuel wc0 s _ hempty hfuel
    obtain ⟨f, rfl⟩ : ∃ f, fuel = f + 1 := ⟨fuel - 1, by simp at hfuel; omega⟩
    simp at hempty
    rw [poll_cq_drain_step_empty env cq f wc0 s hempty]
    rfl
  | cons w ws ih =>
    intro fuel wc0 s hready hempty hfuel
    obtain ⟨f, rfl⟩ : ∃ f, fuel = f + 1 := ⟨fuel - 1, by simp at hfuel; omega⟩
    have h0 : env.ibv_poll_cq s.clock = (1, w) := by
      have := hready 0 w (by simp)
      simpa using this
    rw [poll_cq_drain_step_ready env cq f wc0 w s h0]
    obtain ⟨l, _, hcase⟩ := on_completion_appends w (polled_state cq 1 w s)
    rcases hcase with ⟨_, hrun⟩ | ⟨_, hrun⟩
    · have hclock : ((polled_state cq 1 w s).log l).clock = s.clock + 1 := rfl
      simp only [drain_in_order, hrun, Outcome.bind_returned]
      apply ih
      · intro i w2 hi
        rw [hclock]
        have := hready (i + 1) w2 (by simpa using hi)
        rw [← this]
        congr 1
        omega
      · rw [hclock]
        rw [← hempty]
        congr 2
        simp
        omega
      · simp at hfuel
        omega
    · simp only [drain_in_order, hrun, Outcome.bind_exited]

/-- Draining successful completions in order returns, after one poll per completion and
one empty poll, and without any notification call. -/
theorem drain_in_order_successful (cq : Nat) (wcs : List ibv_wc) :
    ∀ (wc0 : ibv_wc) (s : State), (∀ w ∈ wcs, w.status = IBV_WC_SUCCESS) →
      ∃ s2 l, drain_in_order cq wcs wc0 s = .returned (wcs.getLast?.getD wc0) s2 ∧
        s2 = { s with clock := s.clock + wcs.length + 1, trace := s.trace ++ l } ∧
        l.filterMap Effect.poll_result =
          wcs.map (fun w => ((1 : Int), w)) ++ [(0, wcs.getLast?.getD wc0)] ∧
        ∀ e ∈ l, e.is_notify = false := by
  induction wcs with
  | nil =>
    intro wc0 s _
    exact ⟨_, [.ibv_poll_cq cq 1 0 wc0], rfl, by simp [polled_state],
      by simp [Effect.poll_result], by simp [Effect.is_notify]⟩
  | cons w ws ih =>
    intro wc0 s hall
    obtain ⟨l, hl, hcase⟩ := on_completion_appends w (polled_state cq 1 w s)
    rcases hcase with ⟨_, hrun⟩ | ⟨hbad, _⟩
    · obtain ⟨s2, l2, h1, h2, h3, h4⟩ :=
        ih w ((polled_state cq 1 w s).log l) (fun x hx => hall x (List.mem_cons_of_mem w hx))
      have hlast : (w :: ws).getLast?.getD wc0 = ws.getLast?.getD w := by
        cases ws with
        | nil => rfl
        | cons a t =>
          rw [List.getLast?_cons_cons, List.getLast?_eq_getLast _ (List.cons_ne_nil a t)]
          rfl
      refine ⟨s2, .ibv_poll_cq cq 1 1 w :: (l ++ l2), ?_, ?_, ?_, ?_⟩
      · simp only [drain_in_order, hrun, Outcome.bind_returned]
        rw [h1, hlast]
      · rw [h2]
        simp [State.log, polled_state]
        omega
      · have hnone : l.filterMap Effect.poll_result = [] := by
          rw [List.filterMap_eq_nil_iff]
          exact fun e he => (hl e he).1
        simp [List.filterMap_cons, List.filterMap_append, Effect.poll_result, hnone, h3, hlast]
      · intro e he
        rcases List.mem_cons.mp he with h | h
        · rw [h]
          rfl
        · rcases List.mem_append.mp h with h | h
          · exact (hl e h).2
          · exact h4 e h
    · exact absurd (hall w (List.mem_cons_self w ws)) hbad

/-- C6. In an iteration of `poll_cq` that has retrieved a notification, the trace starts
with `ibv_get_cq_event`, one `ibv_ack_cq_events` for one event, and one
`ibv_req_notify_cq`, in this order and before any poll.  If the re-arm fails the process
ends there; otherwise the iteration is the drain loop run from that state.  If then
`wcs` are the successful completions ready in the queue (the polls return them one by one,
and the next poll returns 0), the iteration, given room for `wcs.length + 1` polls, does
what `drain_in_order` does: every completion is handed to `on_completion` once, in queue
order; it returns, the polls in its trace are one for each completion, in order, and
last the empty one, and the drain makes no further notification call. -/
theorem poll_cq_iteration_rearm_then_drain (env : Transport) (s : State) (wc0 : ibv_wc)
    (hget : (env.ibv_get_cq_event s.clock).1 = 0) :
    (notified_state env s).trace = s.trace ++
      [.ibv_get_cq_event (s_ctx_deref s).comp_channel (env.ibv_get_cq_event s.clock).2 0,
       .ibv_ack_cq_events (env.ibv_get_cq_event s.clock).2 1,
       .ibv_req_notify_cq (env.ibv_get_cq_event s.clock).2 0
          (env.ibv_req_notify_cq (s.clock + 1))] ∧
    (env.ibv_req_notify_cq (s.clock + 1) ≠ 0 → ∀ fuel : Nat,
      poll_cq_iteration env fuel wc0 s = some (.exited ((notified_state env s).log
        (die_effects "error: ibv_req_notify_cq(cq, 0) failed (returned non-zero)."))) ) ∧
    (env.ibv_req_notify_cq (s.clock + 1) = 0 → ∀ fuel : Nat,
      poll_cq_iteration env fuel wc0 s =
        poll_cq_drain env (env.ibv_get_cq_event s.clock).2 fuel wc0 (notified_state env s)) ∧
    (env.ibv_req_notify_cq (s.clock + 1) = 0 → ∀ wcs : List ibv_wc,
      (∀ w ∈ wcs, w.status = IBV_WC_SUCCESS) →
      (∀ i w, wcs[i]? = some w → env.ibv_poll_cq (s.clock + 2 + i) = (1, w)) →
      (env.ibv_poll_cq (s.clock + 2 + wcs.length)).1 = 0 →
      ∀ fuel : Nat, wcs.length < fuel →
        poll_cq_iteration env fuel wc0 s =
          some (drain_in_order (env.ibv_get_cq_event s.clock).2 wcs wc0 (notified_state env s)) ∧
        ∃ s2 l, drain_in_order (env.ibv_get_cq_event s.clock).2 wcs wc0 (notified_state env s) =
            .returned (wcs.getLast?.getD wc0) s2 ∧
          s2.trace = (notified_state env s).trace ++ l ∧
          l.filterMap Effect.poll_result =
            wcs.map (fun w => ((1 : Int), w)) ++ [(0, wcs.getLast?.getD wc0)] ∧
          ∀ e ∈ l, e.is_notify = false) := by
  refine ⟨by simp [notified_state, hget], ?_, ?_, ?_⟩
  · intro hr fuel
    simp [poll_cq_iteration, poll_cq_notify_run env s hget, hr]
  · intro hr fuel
    simp [poll_cq_iteration, poll_cq_notify_run env s hget, hr]
  · intro hr wcs hok hready hempty fuel hfuel
    constructor
    · simp only [poll_cq_iteration, poll_cq_notify_run env s hget, hr, if_true]
      exact poll_cq_drain_in_order env _ wcs fuel wc0 (notified_state env s) hready hempty hfuel
    · obtain ⟨s2, l, h1, h2, h3, h4⟩ :=
        drain_in_order_successful (env.ibv_get_cq_event s.clock).2 wcs wc0
          (notified_state env s) hok
      exact ⟨s2, l, h1, by rw [h2], h3, h4⟩

/-- Witness of C6: two completions ready at the first notification. -/
theorem poll_cq_iteration_rearm_then_drain_witness :
    poll_cq_iteration env_two_ready 3 { wr_id := 0, status := 0, opcode := 0 }
        (built_state 1 (start_state 1 [])) =
      some (drain_in_order 4
        [{ wr_id := 0, status := 0, opcode := 0 }, { wr_id := 7, status := 0, opcode := 128 }]
        { wr_id := 0, status := 0, opcode := 0 }
        (notified_state env_two_ready (built_state 1 (start_state 1 [])))) :=
  ((poll_cq_iteration_rearm_then_drain env_two_ready (built_state 1 (start_state 1 []))
      { wr_id := 0, status := 0, opcode := 0 } rfl).2.2.2 rfl
      [{ wr_id := 0, status := 0, opcode := 0 }, { wr_id := 7, status := 0, opcode := 128 }]
      (by decide)
      (by
        intro i w hi
        rcases i with _ | _ | i
        · simp at hi
          subst hi
          rfl
        · simp at hi
          subst hi
          rfl
        · simp at hi)
      rfl 3 (by decide)).1

/-- C10, on the code: a poll that returns the error code -1 does not end the drain loop,
and `on_completion` is invoked again on the completion that the previous poll left in
`wc`: one send completion produces two send-completed lines. -/
theorem poll_cq_drain_negative_poll :
    (poll_cq_drain env_poll_error 4 3 { wr_id := 9, status := 9, opcode := 9 }
        (start_state 1 [])).map (fun o => o.state.trace) =
      some [.ibv_poll_cq 4 1 1 { wr_id := 0, status := 0, opcode := 0 },
            .printf "send completed successfully.\n" [],
            .ibv_poll_cq 4 1 (-1) { wr_id := 0, status := 0, opcode := 0 },
            .printf "send completed successfully.\n" [],
            .ibv_poll_cq 4 1 0 { wr_id := 0, status := 0, opcode := 0 }] := by
  rfl

/-! ## Properties of on_connect_request and on_event -/

theorem build_context_accepts (env : Transport) (hall : env.AllSucceed) (v : Nat) (s : State)
    (hdev : ∀ c, s.s_ctx = some c → c.ctx = v) :
    ∃ sb, build_context env v s = .returned () sb := by
  cases hc : s.s_ctx with
  | some c => exact ⟨s, build_context_same env v s c hc (hdev c hc)⟩
  | none =>
    rcases build_context_fresh env v s hc with ⟨_, h⟩ | ⟨hn, _⟩
    · exact ⟨_, h⟩
    · exact absurd (hall.build_ok _) hn

/-- C1, as the code has it.  Take a connect request handled by `on_connect_request`.
(1) If every library call succeeds and `build_context` accepts the device of the request
(no context built yet, or built for the same device), the handler returns 0 and its
effects are, in this order: the message, those of `build_context` (none, or the six of
building the context), then `rdma_create_qp`, the allocation of the record and of the two
buffers, `ibv_reg_mr` of the send buffer and of the receive buffer, one `ibv_post_recv` on
the receive buffer with the record as tag, and last `rdma_accept`.
(2) In every run, whatever fails: if `rdma_accept` is called at all, then `build_context`
has returned, every step before the accept has succeeded, and the trace is the one of
(1) up to the accept, which is followed by nothing if it succeeded and by the diagnostic
of `die` if not.  So when an earlier step fails, `rdma_accept` is not called. -/
theorem on_connect_request_order (env : Transport) (id : Nat) (s : State) :
    (env.AllSucceed → (∀ c, s.s_ctx = some c → c.ctx = (s.ids id).verbs) →
      ∃ sb built, build_context env (s.ids id).verbs (s.log [request_line]) = .returned () sb ∧
        sb.trace = s.trace ++ request_line :: built ∧
        (built = [] ∨ built = build_effects (s.ids id).verbs s) ∧
        on_connect_request env id s = .returned 0 (accepted_state env id sb) ∧
        (accepted_state env id sb).trace =
          sb.trace ++ setup_effects env id sb ++ [.rdma_accept id 0]) ∧
    ((∃ e ∈ (on_connect_request env id s).state.trace.drop s.trace.length,
        e.is_accept = true) →
      ∃ sb built, build_context env (s.ids id).verbs (s.log [request_line]) = .returned () sb ∧
        sb.trace = s.trace ++ request_line :: built ∧
        (built = [] ∨ built = build_effects (s.ids id).verbs s) ∧
        env.setup_ok sb.clock ∧
        (on_connect_request env id s).state.trace =
          sb.trace ++ setup_effects env id sb ++
            .rdma_accept id (env.rdma_accept (sb.clock + 4)) ::
              (if env.rdma_accept (sb.clock + 4) = 0 then []
               else die_effects
                "error: rdma_accept(id, &cm_params) failed (returned non-zero).")) := by
  have hbuilt : ∀ sb, build_context env (s.ids id).verbs (s.log [request_line]) =
      .returned () sb →
      ∃ built, sb.trace = s.trace ++ request_line :: built ∧
        (built = [] ∨ built = build_effects (s.ids id).verbs s) := by
    intro sb hb
    rcases build_context_returned env _ _ sb hb with ⟨hs, _⟩ | ⟨_, _, hs⟩
    · exact ⟨[], by rw [hs]; rfl, Or.inl rfl⟩
    · refine ⟨build_effects (s.ids id).verbs s, ?_, Or.inr rfl⟩
      rw [hs]
      simp [built_state, State.log, build_effects]
  constructor
  · intro hall hdev
    obtain ⟨sb, hb⟩ := build_context_accepts env hall (s.ids id).verbs (s.log [request_line])
      hdev
    obtain ⟨built, h1, h2⟩ := hbuilt sb hb
    refine ⟨sb, built, hb, h1, h2, on_connect_request_ok env hall id s sb hb, ?_⟩
    simp [accepted_state, hall.accept_ok]
  · rintro ⟨e, he, hacc⟩
    rcases on_connect_request_outcome env id s with ⟨sb, hb, hok, hrun⟩ | ⟨t, hrun, hq⟩
    · have hb2 : build_context env (s.ids id).verbs (s.log [request_line]) =
          .returned () sb := hb
      obtain ⟨built, h1, h2⟩ := hbuilt sb hb2
      refine ⟨sb, built, hb2, h1, h2, hok, ?_⟩
      rw [hrun]
      by_cases ha : env.rdma_accept (sb.clock + 4) = 0
      · simp [ha, accepted_state]
      · simp [ha, accepted_state, State.log]
    · exfalso
      obtain ⟨_, l, hl, hno⟩ := hq
      rw [hrun] at he
      simp only [Outcome.state_exited, hl, List.drop_left] at he
      have := (hno e he).1
      rw [hacc] at this
      cases this

/-- The whole trace of the first connect request of a process, every call succeeding. -/
theorem first_request_trace :
    connected_state.trace =
      [.printf "received connection request.\n" [],
       .malloc .struct_context 1,
       .ibv_alloc_pd 1 2,
       .ibv_create_comp_channel 1 3,
       .ibv_create_cq 1 10 3 4,
       .ibv_req_notify_cq 4 0 0,
       .pthread_create "poll_cq" 0,
       .rdma_create_qp 50 2
         { qp_context := 0, send_cq := 4, recv_cq := 4, srq := 0
           cap := { max_send_wr := 10, max_recv_wr := 10, max_send_sge := 1,
                    max_recv_sge := 1, max_inline_data := 0 }
           qp_type := 2, sq_sig_all := 0 } 0,
       .malloc .struct_connection 7,
       .malloc (.bytes 1024) 8,
       .malloc (.bytes 1024) 9,
       .ibv_reg_mr 2 8 1024 3 10,
       .ibv_reg_mr 2 9 1024 3 11,
       .ibv_post_recv 6
         { wr_id := 7, next := 0, sg_list := [{ addr := 9, length := 1024, lkey := 107 }],
           num_sge := 1 } 0,
       .rdma_accept 50 0] := rfl

/-- Witness of C1: the first connect request of a process. -/
theorem on_connect_request_order_witness :
    env_ok.AllSucceed ∧
    ∃ sb built, build_context env_ok ((start_state 1 [50]).ids 50).verbs
        ((start_state 1 [50]).log [request_line]) = .returned () sb ∧
      sb.trace = (start_state 1 [50]).trace ++ request_line :: built ∧
      (built = [] ∨ built = build_effects ((start_state 1 [50]).ids 50).verbs
        (start_state 1 [50])) ∧
      on_connect_request env_ok 50 (start_state 1 [50]) =
        .returned 0 (accepted_state env_ok 50 sb) ∧
      (accepted_state env_ok 50 sb).trace =
        sb.trace ++ setup_effects env_ok 50 sb ++ [.rdma_accept 50 0] :=
  ⟨env_ok_all_succeed,
   (on_connect_request_order env_ok 50 (start_state 1 [50])).1 env_ok_all_succeed
     (fun _ hc => nomatch hc)⟩

theorem on_connect_request_other_device :
    on_connect_request env_ok 50 other_device_state =
      .exited (other_device_state.log (request_line ::
        die_effects "cannot handle events in more than one context.")) := by
  rw [on_connect_request_split]
  have hb := build_context_other env_ok (other_device_state.ids 50).verbs
    (other_device_state.log [.printf "received connection request.\n" []])
    { ctx := 1, pd := 2, cq := 4, comp_channel := 3, cq_poller_thread := 5 } rfl (by decide)
  rw [hb]
  simp [State.log, request_line]

/-- Counterexample to C1 as stated: every library call succeeds, yet `on_connect_request`
ends the process in `build_context` (the context is that of another device) and no accept
is sent. -/
theorem on_connect_request_counterexample :
    env_ok.AllSucceed ∧
    on_connect_request env_ok 50 other_device_state =
      .exited (other_device_state.log (request_line ::
        die_effects "cannot handle events in more than one context.")) ∧
    ¬ ∃ e ∈ (on_connect_request env_ok 50 other_device_state).state.trace, e.is_accept = true := by
  refine ⟨env_ok_all_succeed, on_connect_request_other_device, ?_⟩
  rw [on_connect_request_other_device]
  simp [State.log, other_device_state, built_state, build_effects, start_state, request_line,
    die_effects, Effect.is_accept]

theorem on_event_connect_request (env : Transport) (event : rdma_cm_event) (s : State)
    (h : event.event = RDMA_CM_EVENT_CONNECT_REQUEST) :
    on_event env event s = on_connect_request env event.id s := by
  simp [on_event, h]

theorem on_event_established (env : Transport) (event : rdma_cm_event) (s : State)
    (h : event.event = RDMA_CM_EVENT_ESTABLISHED) :
    on_event env event s = on_connection env (s.ids event.id).context s := by
  simp [on_event, h, RDMA_CM_EVENT_ESTABLISHED, RDMA_CM_EVENT_CONNECT_REQUEST, get_state]

theorem on_event_disconnected (env : Transport) (event : rdma_cm_event) (s : State)
    (h : event.event = RDMA_CM_EVENT_DISCONNECTED) :
    on_event env event s = on_disconnect event.id s := by
  simp [on_event, h, RDMA_CM_EVENT_ESTABLISHED, RDMA_CM_EVENT_CONNECT_REQUEST,
    RDMA_CM_EVENT_DISCONNECTED]

theorem on_event_unknown (env : Transport) (event : rdma_cm_event) (s : State)
    (h1 : event.event ≠ RDMA_CM_EVENT_CONNECT_REQUEST)
    (h2 : event.event ≠ RDMA_CM_EVENT_ESTABLISHED)
    (h3 : event.event ≠ RDMA_CM_EVENT_DISCONNECTED) :
    on_event env event s = .exited (s.log (die_effects "on_event: unknown event.")) := by
  simp [on_event, h1, h2, h3, die, die_effects, State.log]

/-- Whenever `on_event` returns, it returns 0. -/
theorem on_event_returns_zero (env : Transport) (event : rdma_cm_event) (s s1 : State)
    (r : Int) (h : on_event env event s = .returned r s1) : r = 0 := by
  by_cases h1 : event.event = RDMA_CM_EVENT_CONNECT_REQUEST
  · rw [on_event_connect_request env event s h1] at h
    exact (on_connect_request_returned env event.id s s1 r h).1
  by_cases h2 : event.event = RDMA_CM_EVENT_ESTABLISHED
  · rw [on_event_established env event s h2, on_connection_run] at h
    split at h
    · injection h with hr _
      exact hr.symm
    · cases h
  by_cases h3 : event.event = RDMA_CM_EVENT_DISCONNECTED
  · rw [on_event_disconnected env event s h3] at h
    obtain ⟨s2, hd, _⟩ := on_disconnect_trace event.id s
    rw [hd] at h
    injection h with hr _
    exact hr.symm
  · rw [on_event_unknown env event s h1 h2 h3] at h
    cases h

theorem main_loop_cons (env : Transport) (event : rdma_cm_event)
    (rest : List rdma_cm_event) (s : State) :
    main_loop env (event :: rest) s =
      (on_event env event
        (s.log [.rdma_get_cm_event (some event), .rdma_ack_cm_event event])).bind
        (fun r => if r = 0 then main_loop env rest else (pure true : Prog Bool)) := by
  simp [main_loop, emit, State.log]

/-- The event loop of `main` is never left through `break`. -/
theorem main_loop_never_breaks (env : Transport) (events : List rdma_cm_event) :
    ∀ (s s1 : State) (b : Bool), main_loop env events s = .returned b s1 → b = false := by
  induction events with
  | nil =>
    intro s s1 b h
    simp [main_loop, emit] at h
    exact h.1
  | cons event rest ih =>
    intro s s1 b h
    rw [main_loop_cons] at h
    cases he : on_event env event
        (s.log [.rdma_get_cm_event (some event), .rdma_ack_cm_event event]) with
    | exited t =>
      rw [he] at h
      cases h
    | returned r t =>
      have hr := on_event_returns_zero env event _ t r he
      rw [he, hr] at h
      simp at h
      exact ih t s1 b h

/-- C4, as the code has it.  For an event of one of the three kinds `on_event` runs the
matching handler and nothing else (its outcome is the outcome of that handler); for any
other kind it ends the process with the diagnostic of `die`, having run no handler.
Whenever `on_event` returns it returns 0, so the loop of `main` is never left through
`break`.  If every library call succeeds, `on_event` ends the process exactly when the
kind is not one of the three, or the event is a connect request on a device other than
the one the context was built for. -/
theorem on_event_dispatch (env : Transport) (event : rdma_cm_event) (s : State) :
    (event.event = RDMA_CM_EVENT_CONNECT_REQUEST →
      on_event env event s = on_connect_request env event.id s) ∧
    (event.event = RDMA_CM_EVENT_ESTABLISHED →
      on_event env event s = on_connection env (s.ids event.id).context s) ∧
    (event.event = RDMA_CM_EVENT_DISCONNECTED →
      on_event env event s = on_disconnect event.id s) ∧
    (unknown_kind event →
      on_event env event s = .exited (s.log (die_effects "on_event: unknown event."))) ∧
    (∀ (r : Int) (s1 : State), on_event env event s = .returned r s1 → r = 0) ∧
    (∀ (events : List rdma_cm_event) (b : Bool) (s1 : State),
      main_loop env events s = .returned b s1 → b = false) ∧
    (env.AllSucceed →
      ((on_event env event s).isExited = true ↔ (unknown_kind event ∨ other_device event s))) := by
  refine ⟨on_event_connect_request env event s, on_event_established env event s,
    on_event_disconnected env event s, fun h => on_event_unknown env event s h.1 h.2.1 h.2.2,
    fun r s1 h => on_event_returns_zero env event s s1 r h,
    fun events b s1 h => main_loop_never_breaks env events s s1 b h, ?_⟩
  intro hall
  by_cases h1 : event.event = RDMA_CM_EVENT_CONNECT_REQUEST
  · rw [on_event_connect_request env event s h1]
    have hnk : ¬ unknown_kind event := fun h => h.1 h1
    by_cases hdev : ∀ c, s.s_ctx = some c → c.ctx = (s.ids event.id).verbs
    · obtain ⟨sb, hb⟩ := build_context_accepts env hall (s.ids event.id).verbs
        (s.log [request_line]) hdev
      rw [on_connect_request_ok env hall event.id s sb hb]
      simp only [Outcome.isExited, Bool.false_eq_true, false_iff, not_or]
      refine ⟨hnk, ?_⟩
      rintro ⟨_, c, hc, hne⟩
      exact hne (hdev c hc)
    · push_neg at hdev
      obtain ⟨c, hc, hne⟩ := hdev
      rw [on_connect_request_split, build_context_other env _
        (s.log [.printf "received connection request.\n" []]) c hc hne]
      simp only [Outcome.bind_exited, Outcome.isExited, true_iff]
      exact Or.inr ⟨h1, c, hc, hne⟩
  have hnd : ¬ other_device event s := fun h => h1 h.1
  by_cases h2 : event.event = RDMA_CM_EVENT_ESTABLISHED
  · rw [on_event_established env event s h2, on_connection_run, if_pos (hall.post_send_ok _)]
    simp only [Outcome.isExited, Bool.false_eq_true, false_iff, not_or]
    exact ⟨fun h => h.2.1 h2, hnd⟩
  by_cases h3 : event.event = RDMA_CM_EVENT_DISCONNECTED
  · rw [on_event_disconnected env event s h3]
    obtain ⟨s2, hd, _⟩ := on_disconnect_trace event.id s
    rw [hd]
    simp only [Outcome.isExited, Bool.false_eq_true, false_iff, not_or]
    exact ⟨fun h => h.2.2 h3, hnd⟩
  · rw [on_event_unknown env event s h1 h2 h3]
    simp only [Outcome.isExited, true_iff]
    exact Or.inl ⟨h1, h2, h3⟩

/-- Witness of C4: the first connect request of a process, every call succeeding. -/
theorem on_event_dispatch_witness :
    (on_event env_ok { event := 4, id := 50 } (start_state 1 [50])).isExited = false := by
  have h := (on_event_dispatch env_ok { event := 4, id := 50 } (start_state 1 [50])).2.2.2.2.2.2
    env_ok_all_succeed
  cases hx : (on_event env_ok { event := 4, id := 50 } (start_state 1 [50])).isExited with
  | false => rfl
  | true =>
    rcases h.mp hx with hk | ⟨_, c, hc, _⟩
    · exact absurd rfl hk.1
    · cases hc

/-- Counterexample to C4 as stated: every library call succeeds and the event is a
connect request, one of the three kinds, yet `on_event` ends the process. -/
theorem on_event_counterexample :
    env_ok.AllSucceed ∧
    ({ event := 4, id := 50 } : rdma_cm_event).event = RDMA_CM_EVENT_CONNECT_REQUEST ∧
    (on_event env_ok { event := 4, id := 50 } other_device_state).isExited = true := by
  refine ⟨env_ok_all_succeed, rfl, ?_⟩
  rw [on_event_connect_request env_ok _ _ rfl]
  show (on_connect_request env_ok 50 other_device_state).isExited = true
  rw [on_connect_request_other_device]
  rfl

/-! ## Teardown along a sequence of events -/

theorem on_disconnect_run (id : Nat) (s : State) (hc : Connected s id) :
    on_disconnect id s = .returned 0 (disconnected_state s id) := by
  obtain ⟨h1, h2, h3⟩ := hc.heap_pos
  have hq := hc.qp_live
  have hsm := hc.send_mr_live
  have hrm := hc.recv_mr_live
  have hne := hc.mr_ne
  have hsr := hc.send_region_live
  have hrr := hc.recv_region_live
  have hrec := hc.record_live
  have hnd := hc.heap_nodup
  simp at hnd
  obtain ⟨⟨hn1, hn2⟩, hn3⟩ := hnd
  by_cases hid : s.live_ids id = true <;>
  simp [on_disconnect, get_state, printf, emit, rdma_destroy_qp, ibv_dereg_mr, free,
    rdma_destroy_id, disconnect_effects, disconnected_state, h1, h2, h3, hq, hsm, hrm, hne,
    Ne.symm hne, hsr, hrr, hrec, hn1, hn2, hn3, Ne.symm hn1, Ne.symm hn2, Ne.symm hn3, hid]

theorem AgreeOn.handles_eq {s t : State} {id : Nat} (h : AgreeOn s t id) :
    handles t id = handles s id := by
  simp [handles, h.ids_eq, h.conns_eq]

theorem AgreeOn.connected {s t : State} {id : Nat} (h : AgreeOn s t id)
    (hc : Connected s id) : Connected t id := by
  have e1 := h.ids_eq
  have e2 := h.conns_eq
  constructor
  · rw [e1, e2]; exact hc.qp_eq
  · rw [e1, h.qp_eq]; exact hc.qp_live
  · rw [e1, e2, h.send_mr_eq]; exact hc.send_mr_live
  · rw [e1, e2, h.recv_mr_eq]; exact hc.recv_mr_live
  · rw [e1, e2]; exact hc.mr_ne
  · rw [e1, e2, h.send_region_eq]; exact hc.send_region_live
  · rw [e1, e2, h.recv_region_eq]; exact hc.recv_region_live
  · rw [e1, h.record_eq]; exact hc.record_live
  · rw [e1, e2]; exact hc.heap_nodup
  · rw [e1, e2]; exact hc.heap_pos

/-- Carrying the invariant over to a state that agrees on every open connection. -/
theorem Inv.transfer {s t : State} {opened : List Nat} (hinv : Inv s opened)
    (hstale : t.stale_releases = []) (hnext : s.next ≤ t.next)
    (hlive : ∀ id ∈ opened, t.live_ids id = s.live_ids id)
    (hagree : ∀ id ∈ opened, AgreeOn s t id) : Inv t opened := by
  refine ⟨hstale, hinv.nodup, ?_, ?_, ?_, ?_⟩
  · intro id hid
    rw [hlive id hid]
    exact hinv.live id hid
  · intro id hid
    exact (hagree id hid).connected (hinv.connected id hid)
  · intro id hid h hh
    rw [(hagree id hid).handles_eq] at hh
    exact le_trans (hinv.below id hid h hh) hnext
  · intro id1 h1 id2 h2 hne h hh
    rw [(hagree id1 h1).handles_eq] at hh
    rw [(hagree id2 h2).handles_eq]
    exact hinv.separate id1 h1 id2 h2 hne h hh

theorem Inv.erase {s : State} {opened : List Nat} (hinv : Inv s opened) (id : Nat) :
    Inv s (opened.erase id) :=
  ⟨hinv.no_stale, hinv.nodup.erase id,
   fun i hi => hinv.live i (List.mem_of_mem_erase hi),
   fun i hi => hinv.connected i (List.mem_of_mem_erase hi),
   fun i hi => hinv.below i (List.mem_of_mem_erase hi),
   fun i hi j hj => hinv.separate i (List.mem_of_mem_erase hi) j (List.mem_of_mem_erase hj)⟩

/-- The invariant survives the teardown of an open connection. -/
theorem Inv.disconnect {s : State} {opened : List Nat} (hinv : Inv s opened) (id : Nat)
    (hid : id ∈ opened) : Inv (disconnected_state s id) (opened.erase id) := by
  apply (hinv.erase id).transfer
  · simp [disconnected_state, hinv.no_stale, hinv.live id hid]
  · exact le_refl _
  · intro i hi
    have hne : i ≠ id := fun e => by
      rw [e] at hi
      exact (List.Nodup.not_mem_erase hinv.nodup) hi
    simp [disconnected_state, hne]
  · intro i hi
    have hio : i ∈ opened := List.mem_of_mem_erase hi
    have hne : i ≠ id := fun e => by
      rw [e] at hi
      exact (List.Nodup.not_mem_erase hinv.nodup) hi
    have hsep := hinv.separate i hio id hid hne
    simp [handles] at hsep
    obtain ⟨hq, hsm, hrm, hsr, hrr, hc⟩ := hsep
    constructor <;> simp [disconnected_state, hq, hsm, hrm, hsr, hrr, hc]

/-- A connection made of handles already handed out is untouched by steps that only
hand out new handles. -/
theorem AgreeOn.of_frame {s t : State} {id : Nat} (hids : t.ids = s.ids)
    (hconns : t.conns = s.conns) (hqps : t.live_qps = s.live_qps)
    (hmrs : t.live_mrs = s.live_mrs)
    (hheap : ∀ p, p ≤ s.next → t.live_heap p = s.live_heap p)
    (hbelow : ∀ h ∈ handles s id, h ≤ s.next) : AgreeOn s t id := by
  simp [handles] at hbelow
  obtain ⟨_, _, _, hsr, hrr, hc⟩ := hbelow
  constructor
  · rw [hids]
  · rw [hconns]
  · rw [hqps]
  · rw [hmrs]
  · rw [hmrs]
  · exact hheap _ hsr
  · exact hheap _ hrr
  · exact hheap _ hc

/-- The invariant survives `build_context`. -/
theorem Inv.build_context {s sb : State} {opened : List Nat} (hinv : Inv s opened)
    (env : Transport) (v : Nat) (l : List Effect)
    (hb : build_context env v (s.log l) = .returned () sb) :
    Inv sb opened ∧ sb.ids = s.ids ∧ sb.live_ids = s.live_ids := by
  rcases build_context_returned env v (s.log l) sb hb with ⟨hs, _⟩ | ⟨_, _, hs⟩
  · rw [hs]
    refine ⟨?_, rfl, rfl⟩
    refine @Inv.transfer s (s.log l) opened hinv hinv.no_stale (le_refl _) (fun _ _ => rfl) ?_
    intro id hid
    exact AgreeOn.of_frame rfl rfl rfl rfl (fun _ _ => rfl) (hinv.below id hid)
  · rw [hs]
    refine ⟨?_, rfl, rfl⟩
    refine @Inv.transfer s (built_state v (s.log l)) opened hinv hinv.no_stale
      (by simp [built_state, State.log]) (fun _ _ => rfl) ?_
    intro id hid
    refine @AgreeOn.of_frame s (built_state v (s.log l)) id rfl rfl rfl rfl ?_
      (hinv.below id hid)
    intro p hp
    have : p ≠ s.next + 1 := by omega
    simp [built_state, State.log, this]

/-- The invariant survives a connect request that is accepted, for an identifier that is
live and has no connection yet. -/
theorem Inv.accept {sb : State} {opened : List Nat} (hinv : Inv sb opened)
    (env : Transport) (id : Nat) (hid : id ∉ opened) (hlive : sb.live_ids id = true) :
    Inv (accepted_state env id sb) (id :: opened) := by
  have hagree : ∀ i ∈ opened, AgreeOn sb (accepted_state env id sb) i := by
    intro i hi
    have hne : i ≠ id := fun e => hid (e ▸ hi)
    have hb := hinv.below i hi
    simp [handles] at hb
    obtain ⟨hq, hsm, hrm, hsr, hrr, hc⟩ := hb
    have e1 : ∀ k, 0 < k → (sb.ids i).qp ≠ sb.next + k := fun k hk => by omega
    have e2 : ∀ k, 0 < k → (sb.conns (sb.ids i).context).send_mr ≠ sb.next + k :=
      fun k hk => by omega
    have e3 : ∀ k, 0 < k → (sb.conns (sb.ids i).context).recv_mr ≠ sb.next + k :=
      fun k hk => by omega
    have e4 : ∀ k, 0 < k → (sb.conns (sb.ids i).context).send_region ≠ sb.next + k :=
      fun k hk => by omega
    have e5 : ∀ k, 0 < k → (sb.conns (sb.ids i).context).recv_region ≠ sb.next + k :=
      fun k hk => by omega
    have e6 : ∀ k, 0 < k → (sb.ids i).context ≠ sb.next + k := fun k hk => by omega
    constructor <;> simp [accepted_state, hne, e1, e2, e3, e4, e5, e6]
  have hnew : handles (accepted_state env id sb) id =
      [sb.next + 1, sb.next + 5, sb.next + 6, sb.next + 3, sb.next + 4, sb.next + 2] := by
    simp [handles, accepted_state]
  have hold : ∀ i ∈ opened, ∀ h ∈ handles (accepted_state env id sb) i, h ≤ sb.next := by
    intro i hi h hh
    rw [(hagree i hi).handles_eq] at hh
    exact hinv.below i hi h hh
  have hbase := @Inv.transfer sb (accepted_state env id sb) opened hinv hinv.no_stale
    (by simp [accepted_state]) (fun _ _ => rfl) hagree
  refine ⟨hinv.no_stale, List.nodup_cons.mpr ⟨hid, hinv.nodup⟩, ?_, ?_, ?_, ?_⟩
  · intro i hi
    rcases List.mem_cons.mp hi with h | h
    · rw [h]
      exact hlive
    · exact hbase.live i h
  · intro i hi
    rcases List.mem_cons.mp hi with h | h
    · rw [h]
      exact accepted_state_connected env id sb
    · exact hbase.connected i h
  · intro i hi h hh
    rcases List.mem_cons.mp hi with e | e
    · rw [e, hnew] at hh
      simp at hh
      simp [accepted_state]
      omega
    · exact hbase.below i e h hh
  · intro i hi j hj hne h hh hh2
    rcases List.mem_cons.mp hi with ei | ei <;> rcases List.mem_cons.mp hj with ej | ej
    · exact hne (ei.trans ej.symm)
    · rw [ei, hnew] at hh
      have := hold j ej h hh2
      simp at hh
      omega
    · rw [ej, hnew] at hh2
      have := hold i ei h hh
      simp at hh2
      omega
    · exact hbase.separate i ei j ej hne h hh hh2

theorem Inv.keep_log {s : State} {opened : List Nat} (hinv : Inv s opened) (l : List Effect) :
    Inv (s.log l) opened :=
  @Inv.transfer s (s.log l) opened hinv hinv.no_stale (le_refl _) (fun _ _ => rfl)
    (fun _ _ => ⟨rfl, rfl, rfl, rfl, rfl, rfl, rfl, rfl⟩)

theorem Inv.posted {s : State} {opened : List Nat} (hinv : Inv s opened) (env : Transport)
    (conn : Nat) : Inv (posted_state env conn s) opened :=
  @Inv.transfer s (posted_state env conn s) opened hinv hinv.no_stale (le_refl _)
    (fun _ _ => rfl) (fun _ _ => ⟨rfl, rfl, rfl, rfl, rfl, rfl, rfl, rfl⟩)

theorem sequenced_fresh (events : List rdma_cm_event) :
    ∀ (opened seen : List Nat), sequenced opened seen events = true →
      ∀ ev ∈ events, ev.event = RDMA_CM_EVENT_CONNECT_REQUEST → ev.id ∉ seen := by
  induction events with
  | nil =>
    intro _ _ _ ev hev
    cases hev
  | cons e rest ih =>
    intro opened seen h ev hev hcr
    by_cases h1 : e.event = RDMA_CM_EVENT_CONNECT_REQUEST
    · simp [sequenced, h1] at h
      rcases List.mem_cons.mp hev with e1 | e1
      · rw [e1]
        exact h.1
      · have := ih _ _ h.2 ev e1 hcr
        exact fun hm => this (List.mem_cons_of_mem _ hm)
    · have hne : ev ≠ e := fun e1 => h1 (e1 ▸ hcr)
      have hin : ev ∈ rest := by
        rcases List.mem_cons.mp hev with e1 | e1
        · exact absurd e1 hne
        · exact e1
      by_cases h3 : e.event = RDMA_CM_EVENT_DISCONNECTED
      · simp [sequenced, h1, h3] at h
        exact ih _ _ h.2 ev hin hcr
      · simp [sequenced, h1, h3] at h
        exact ih _ _ h ev hin hcr

theorem filter_release_append (t l : List Effect) (hl : ∀ e ∈ l, e.is_release = false) :
    (t ++ l).filter Effect.is_release = t.filter Effect.is_release := by
  rw [List.filter_append]
  have : l.filter Effect.is_release = [] := by
    rw [List.filter_eq_nil_iff]
    intro e he
    rw [hl e he]
    simp
  rw [this, List.append_nil]

theorem mem_of_release_append {t l : List Effect} {e : Effect}
    (hl : ∀ x ∈ l, x.is_release = false) (he : e ∈ t ++ l) (hr : e.is_release = true) :
    e ∈ t := by
  rcases List.mem_append.mp he with h | h
  · exact h
  · rw [hl e h] at hr
    cases hr

/-- Steps that release nothing and only hand out new handles keep what the trace says
about the releases. -/
theorem Released.frame {s t : State} {opened seen : List Nat} (h : Released s opened seen)
    (l : List Effect) (ht : t.trace = s.trace ++ l) (hl : ∀ e ∈ l, e.is_release = false)
    (hnext : s.next ≤ t.next)
    (hmr : ∀ m, m ≤ s.next → t.live_mrs m = s.live_mrs m)
    (hheap : ∀ p, p ≤ s.next → t.live_heap p = s.live_heap p) : Released t opened seen := by
  constructor
  · rw [ht, filter_release_append _ _ hl]
    exact h.nodup
  · intro m hm
    rw [ht] at hm
    obtain ⟨h1, h2⟩ := h.mrs m (mem_of_release_append hl hm rfl)
    exact ⟨by rw [hmr m h2]; exact h1, le_trans h2 hnext⟩
  · intro p hp
    rw [ht] at hp
    obtain ⟨h1, h2⟩ := h.heap p (mem_of_release_append hl hp rfl)
    exact ⟨by rw [hheap p h2]; exact h1, le_trans h2 hnext⟩
  · intro i hi
    rw [ht] at hi
    exact h.qps i (mem_of_release_append hl hi rfl)
  · intro i hi
    rw [ht] at hi
    exact h.ids i (mem_of_release_append hl hi rfl)

theorem Released.open_new {s : State} {opened seen : List Nat} (h : Released s opened seen)
    (id : Nat) (hid : id ∉ seen) : Released s (id :: opened) (id :: seen) := by
  refine ⟨h.nodup, h.mrs, h.heap, ?_, ?_⟩
  · intro i hi
    obtain ⟨h1, h2⟩ := h.qps i hi
    refine ⟨List.mem_cons_of_mem _ h1, ?_⟩
    intro hm
    rcases List.mem_cons.mp hm with e | e
    · exact hid (e ▸ h1)
    · exact h2 e
  · intro i hi
    obtain ⟨h1, h2⟩ := h.ids i hi
    refine ⟨List.mem_cons_of_mem _ h1, ?_⟩
    intro hm
    rcases List.mem_cons.mp hm with e | e
    · exact hid (e ▸ h1)
    · exact h2 e

/-- The teardown of an open connection keeps what the trace says about the releases. -/
theorem Released.after_disconnect {s : State} {opened seen : List Nat}
    (h : Released s opened seen) (hinv : Inv s opened) (id : Nat) (hid : id ∈ opened)
    (hseen : id ∈ seen) :
    Released (disconnected_state s id) (opened.erase id) seen := by
  have hc := hinv.connected id hid
  have hb := hinv.below id hid
  simp [handles] at hb
  obtain ⟨_, hb2, hb3, hb4, hb5, hb6⟩ := hb
  have hnd := hc.heap_nodup
  simp at hnd
  obtain ⟨⟨hn1, hn2⟩, hn3⟩ := hnd
  have hne := hc.mr_ne
  have hnot : id ∉ opened.erase id := List.Nodup.not_mem_erase hinv.nodup
  have e1 : Effect.rdma_destroy_qp id ∉ s.trace := fun hm => (h.qps id hm).2 hid
  have e2 : Effect.ibv_dereg_mr (s.conns (s.ids id).context).send_mr ∉ s.trace := fun hm => by
    have := (h.mrs _ hm).1
    rw [hc.send_mr_live] at this
    cases this
  have e3 : Effect.ibv_dereg_mr (s.conns (s.ids id).context).recv_mr ∉ s.trace := fun hm => by
    have := (h.mrs _ hm).1
    rw [hc.recv_mr_live] at this
    cases this
  have e4 : Effect.free (s.conns (s.ids id).context).send_region ∉ s.trace := fun hm => by
    have := (h.heap _ hm).1
    rw [hc.send_region_live] at this
    cases this
  have e5 : Effect.free (s.conns (s.ids id).context).recv_region ∉ s.trace := fun hm => by
    have := (h.heap _ hm).1
    rw [hc.recv_region_live] at this
    cases this
  have e6 : Effect.free (s.ids id).context ∉ s.trace := fun hm => by
    have := (h.heap _ hm).1
    rw [hc.record_live] at this
    cases this
  have e7 : Effect.rdma_destroy_id id ∉ s.trace := fun hm => (h.ids id hm).2 hid
  constructor
  · have hfil : (disconnected_state s id).trace.filter Effect.is_release =
        s.trace.filter Effect.is_release ++
          [.rdma_destroy_qp id, .ibv_dereg_mr (s.conns (s.ids id).context).send_mr,
           .ibv_dereg_mr (s.conns (s.ids id).context).recv_mr,
           .free (s.conns (s.ids id).context).send_region,
           .free (s.conns (s.ids id).context).recv_region,
           .free (s.ids id).context, .rdma_destroy_id id] := by
      simp [disconnected_state, disconnect_effects, List.filter_append, List.filter,
        Effect.is_release]
    rw [hfil, List.nodup_append]
    refine ⟨h.nodup, ?_, ?_⟩
    · simp [hne, hn1, hn2, hn3]
    · intro e he1 he2
      have he := (List.mem_filter.mp he1).1
      simp at he2
      rcases he2 with r | r | r | r | r | r | r <;> rw [r] at he
      · exact e1 he
      · exact e2 he
      · exact e3 he
      · exact e4 he
      · exact e5 he
      · exact e6 he
      · exact e7 he
  · intro m hm
    simp [disconnected_state, disconnect_effects] at hm ⊢
    rcases hm with hm | hm | hm
    · obtain ⟨h1, h2⟩ := h.mrs m hm
      refine ⟨?_, h2⟩
      intro _ _
      exact h1
    · rw [hm]
      exact ⟨by simp, hb2⟩
    · rw [hm]
      exact ⟨by simp, hb3⟩
  · intro p hp
    simp [disconnected_state, disconnect_effects] at hp ⊢
    rcases hp with hp | hp | hp | hp
    · obtain ⟨h1, h2⟩ := h.heap p hp
      refine ⟨?_, h2⟩
      intro _ _ _
      exact h1
    · rw [hp]
      exact ⟨by simp, hb4⟩
    · rw [hp]
      exact ⟨by simp, hb5⟩
    · rw [hp]
      exact ⟨by simp, hb6⟩
  · intro i hi
    simp [disconnected_state, disconnect_effects] at hi
    rcases hi with hi | hi
    · obtain ⟨h1, h2⟩ := h.qps i hi
      exact ⟨h1, fun hm => h2 (List.mem_of_mem_erase hm)⟩
    · rw [hi]
      exact ⟨hseen, hnot⟩
  · intro i hi
    simp [disconnected_state, disconnect_effects] at hi
    rcases hi with hi | hi
    · obtain ⟨h1, h2⟩ := h.ids i hi
      exact ⟨h1, fun hm => h2 (List.mem_of_mem_erase hm)⟩
    · rw [hi]
      exact ⟨hseen, hnot⟩

theorem Released.after_log {s : State} {opened seen : List Nat} (h : Released s opened seen)
    (l : List Effect) (hl : ∀ e ∈ l, e.is_release = false) :
    Released (s.log l) opened seen :=
  @Released.frame s (s.log l) opened seen h l rfl hl (le_refl _) (fun _ _ => rfl)
    (fun _ _ => rfl)

theorem Released.after_build_context {s sb : State} {opened seen : List Nat}
    (h : Released s opened seen) (env : Transport) (v : Nat)
    (hb : build_context env v s = .returned () sb) : Released sb opened seen := by
  rcases build_context_returned env v s sb hb with ⟨hs, _⟩ | ⟨_, _, hs⟩
  · rw [hs]
    exact h
  · rw [hs]
    refine @Released.frame s (built_state v s) opened seen h (build_effects v s) rfl ?_
      (by simp [built_state]) (fun _ _ => rfl) ?_
    · simp [build_effects, Effect.is_release]
    · intro p hp
      have : p ≠ s.next + 1 := by omega
      simp [built_state, this]

theorem Released.after_accept {sb : State} {opened seen : List Nat} (h : Released sb opened seen)
    (env : Transport) (id : Nat) :
    Released (accepted_state env id sb) opened seen := by
  refine @Released.frame sb (accepted_state env id sb) opened seen h
    (setup_effects env id sb ++ [.rdma_accept id (env.rdma_accept (sb.clock + 4))])
    (by simp [accepted_state]) ?_ (by simp [accepted_state]) ?_ ?_
  · simp [setup_effects, Effect.is_release]
  · intro m hm
    have e1 : m ≠ sb.next + 5 := by omega
    have e2 : m ≠ sb.next + 6 := by omega
    simp [accepted_state, e1, e2]
  · intro p hp
    have e1 : p ≠ sb.next + 2 := by omega
    have e2 : p ≠ sb.next + 3 := by omega
    have e3 : p ≠ sb.next + 4 := by omega
    simp [accepted_state, e1, e2, e3]

theorem Released.after_posted {s : State} {opened seen : List Nat} (h : Released s opened seen)
    (env : Transport) (conn : Nat) : Released (posted_state env conn s) opened seen :=
  @Released.frame s (posted_state env conn s) opened seen h _ rfl
    (by simp [Effect.is_release]) (le_refl _) (fun _ _ => rfl) (fun _ _ => rfl)

/-- Along a sequence of events that respects the life cycle of the connections, no
release ever hits a resource that is not live, and no release call is repeated. -/
theorem main_loop_release_once (env : Transport) (events : List rdma_cm_event) :
    ∀ (opened seen : List Nat) (s : State), Inv s opened → Released s opened seen →
      (∀ i ∈ opened, i ∈ seen) →
      sequenced opened seen events = true →
      (∀ ev ∈ events, ev.event = RDMA_CM_EVENT_CONNECT_REQUEST → s.live_ids ev.id = true) →
      (main_loop env events s).state.stale_releases = [] ∧
      ((main_loop env events s).state.trace.filter Effect.is_release).Nodup := by
  induction events with
  | nil =>
    intro opened seen s hinv hrel _ _ _
    have hr := hrel.after_log [.rdma_get_cm_event none] (by simp [Effect.is_release])
    exact ⟨by simp [main_loop, emit, hinv.no_stale], by
      simpa [main_loop, emit, State.log] using hr.nodup⟩
  | cons e rest ih =>
    intro opened seen s hinv hrel hsub hseq hlive
    rw [main_loop_cons]
    have hinv1 := hinv.keep_log [.rdma_get_cm_event (some e), .rdma_ack_cm_event e]
    have hrel1 := hrel.after_log [.rdma_get_cm_event (some e), .rdma_ack_cm_event e]
      (by simp [Effect.is_release])
    have hlive1 : ∀ ev ∈ e :: rest, ev.event = RDMA_CM_EVENT_CONNECT_REQUEST →
        (s.log [.rdma_get_cm_event (some e), .rdma_ack_cm_event e]).live_ids ev.id = true :=
      hlive
    generalize s.log [.rdma_get_cm_event (some e), .rdma_ack_cm_event e] = s1
      at hinv1 hrel1 hlive1 ⊢
    have hrest : ∀ ev ∈ rest, ev.event = RDMA_CM_EVENT_CONNECT_REQUEST →
        s1.live_ids ev.id = true := fun ev hev => hlive1 ev (List.mem_cons_of_mem e hev)
    have hdie : ∀ (t : State) (reason : String), t.stale_releases = [] →
        (t.trace.filter Effect.is_release).Nodup →
        (t.log (die_effects reason)).stale_releases = [] ∧
        ((t.log (die_effects reason)).trace.filter Effect.is_release).Nodup := by
      intro t reason h1 h2
      refine ⟨h1, ?_⟩
      show ((t.trace ++ die_effects reason).filter Effect.is_release).Nodup
      rw [filter_release_append _ _ (by simp [die_effects, Effect.is_release])]
      exact h2
    by_cases h1 : e.event = RDMA_CM_EVENT_CONNECT_REQUEST
    · simp [sequenced, h1] at hseq
      obtain ⟨hfresh, hseq2⟩ := hseq
      have hid : e.id ∉ opened := fun hm => hfresh (hsub _ hm)
      rw [on_event_connect_request env e s1 h1]
      rcases on_connect_request_outcome env e.id s1 with ⟨sb, hb, _, hrun⟩ | ⟨t, hrun, hq⟩
      · obtain ⟨hinvb, _, hlb⟩ := hinv1.build_context env (s1.ids e.id).verbs _ hb
        have hrelb := (hrel1.after_log [.printf "received connection request.\n" []]
          (by simp [Effect.is_release])).after_build_context env (s1.ids e.id).verbs hb
        have hlid : sb.live_ids e.id = true := by
          rw [hlb]
          exact hlive1 e (List.mem_cons_self e rest) h1
        have hinva := hinvb.accept env e.id hid hlid
        have hrela := hrelb.after_accept env e.id
        rw [hrun]
        by_cases ha : env.rdma_accept (sb.clock + 4) = 0
        · rw [if_pos ha]
          simp only [Outcome.bind_returned, if_true]
          apply ih (e.id :: opened) (e.id :: seen) _ hinva (hrela.open_new e.id hfresh) _ hseq2
          · intro ev hev hcr
            have := hrest ev hev hcr
            rw [← hlb] at this
            exact this
          · intro i hi
            rcases List.mem_cons.mp hi with h | h
            · rw [h]
              exact List.mem_cons_self _ _
            · exact List.mem_cons_of_mem _ (hsub i h)
        · rw [if_neg ha]
          simp only [Outcome.bind_exited, Outcome.state_exited]
          exact hdie _ _ hinva.no_stale hrela.nodup
      · rw [hrun]
        simp only [Outcome.bind_exited, Outcome.state_exited]
        obtain ⟨hst, l, hl, hno⟩ := hq
        refine ⟨by rw [hst]; exact hinv1.no_stale, ?_⟩
        rw [hl, filter_release_append _ _ (fun x hx => (hno x hx).2)]
        exact hrel1.nodup
    by_cases h2 : e.event = RDMA_CM_EVENT_ESTABLISHED
    · have hseq2 : sequenced opened seen rest = true := by
        have h3 : e.event ≠ RDMA_CM_EVENT_DISCONNECTED := by
          rw [h2]
          decide
        simpa [sequenced, h1, h3] using hseq
      rw [on_event_established env e s1 h2, on_connection_run]
      have hinvp := hinv1.posted env (s1.ids e.id).context
      have hrelp := hrel1.after_posted env (s1.ids e.id).context
      split
      · simp only [Outcome.bind_returned, if_true]
        exact ih opened seen _ hinvp hrelp hsub hseq2 hrest
      · simp only [Outcome.bind_exited, Outcome.state_exited]
        exact hdie _ _ hinvp.no_stale hrelp.nodup
    by_cases h3 : e.event = RDMA_CM_EVENT_DISCONNECTED
    · simp [sequenced, h1, h3] at hseq
      obtain ⟨hopen, hseq2⟩ := hseq
      rw [on_event_disconnected env e s1 h3,
        on_disconnect_run e.id s1 (hinv1.connected e.id hopen)]
      simp only [Outcome.bind_returned, if_true]
      apply ih (opened.erase e.id) seen _ (hinv1.disconnect e.id hopen)
        (hrel1.after_disconnect hinv1 e.id hopen (hsub _ hopen)) _ hseq2
      · intro ev hev hcr
        have hne : ev.id ≠ e.id := by
          intro heq
          have := sequenced_fresh rest _ _ hseq2 ev hev hcr
          rw [heq] at this
          exact this (hsub _ hopen)
        have := hrest ev hev hcr
        simpa [disconnected_state, hne] using this
      · intro i hi
        exact hsub i (List.mem_of_mem_erase hi)
    · rw [on_event_unknown env e s1 h1 h2 h3]
      simp only [Outcome.bind_exited, Outcome.state_exited]
      exact hdie _ _ hinv1.no_stale hrel1.nodup

/-- C7, as the code has it.  Take a sequence of connection-manager events dispatched
through `on_event` by the loop of `main` in which each connect request comes for a live
identifier that had no connect request before, and each disconnected event for an
identifier whose connection is open, hence at most once per connection.  Then, whatever
the library calls return, starting from a process that has released nothing yet: no
release call (of a queue pair, a registration, a buffer, a record or an identifier) ever
hits a resource that is not live, and no release call occurs twice in the trace, so each
resource is released at most once. -/
theorem teardown_at_most_once (env : Transport) (events : List rdma_cm_event) (s : State)
    (hstale : s.stale_releases = [])
    (hnone : ∀ e ∈ s.trace, e.is_release = false)
    (hseq : sequenced [] [] events = true)
    (hlive : ∀ ev ∈ events, ev.event = RDMA_CM_EVENT_CONNECT_REQUEST →
      s.live_ids ev.id = true) :
    (main_loop env events s).state.stale_releases = [] ∧
    ((main_loop env events s).state.trace.filter Effect.is_release).Nodup := by
  have hfil : s.trace.filter Effect.is_release = [] := by
    rw [List.filter_eq_nil_iff]
    intro e he
    simp [hnone e he]
  have hrel : ∀ e ∈ s.trace, e.is_release = true → False := by
    intro e he hr
    rw [hnone e he] at hr
    cases hr
  apply main_loop_release_once env events [] [] s _ _ _ hseq hlive
  · exact ⟨hstale, List.nodup_nil, fun _ h => absurd h (List.not_mem_nil _),
      fun _ h => absurd h (List.not_mem_nil _), fun _ h => absurd h (List.not_mem_nil _),
      fun _ h => absurd h (List.not_mem_nil _)⟩
  · exact ⟨by rw [hfil]; exact List.nodup_nil, fun m h => (hrel _ h rfl).elim,
      fun p h => (hrel _ h rfl).elim, fun i h => (hrel _ h rfl).elim,
      fun i h => (hrel _ h rfl).elim⟩
  · intro i hi
    cases hi

/-- Witness of C7: connect request, established and disconnected for one identifier. -/
theorem teardown_at_most_once_witness :
    (main_loop env_ok
      [{ event := 4, id := 50 }, { event := 9, id := 50 }, { event := 10, id := 50 }]
      (start_state 1 [50])).state.stale_releases = [] ∧
    ((main_loop env_ok
      [{ event := 4, id := 50 }, { event := 9, id := 50 }, { event := 10, id := 50 }]
      (start_state 1 [50])).state.trace.filter Effect.is_release).Nodup :=
  teardown_at_most_once env_ok
    [{ event := 4, id := 50 }, { event := 9, id := 50 }, { event := 10, id := 50 }]
    (start_state 1 [50]) rfl (fun _ h => absurd h (List.not_mem_nil _)) (by decide)
    (by
      intro ev hev _
      simp at hev
      rcases hev with h | h | h <;> rw [h] <;> rfl)

/-- The first connect request of a process, every library call succeeding. -/
theorem on_connect_request_first (id : Nat) (s : State) (hc : s.s_ctx = none) :
    on_connect_request env_ok id s =
      .returned 0 (accepted_state env_ok id (built_state (s.ids id).verbs (s.log [request_line]))) := by
  apply on_connect_request_ok env_ok env_ok_all_succeed
  rcases build_context_fresh env_ok (s.ids id).verbs (s.log [request_line]) hc with
    ⟨_, h⟩ | ⟨hn, _⟩
  · exact h
  · exact absurd (env_ok_all_succeed.build_ok _) hn

theorem Connected.under_log {s : State} {id : Nat} (h : Connected s id) (l : List Effect) :
    Connected (s.log l) id :=
  @AgreeOn.connected s (s.log l) id ⟨rfl, rfl, rfl, rfl, rfl, rfl, rfl, rfl⟩ h

/-- A second `on_disconnect` for the same identifier releases everything again. -/
theorem on_disconnect_again (env : Transport) (id : Nat) (sb : State) (l1 l2 : List Effect)
    (hlive : sb.live_ids id = true) (hs : sb.stale_releases = []) :
    (on_disconnect id
      ((disconnected_state ((accepted_state env id sb).log l1) id).log l2)).state.stale_releases =
      [.rdma_destroy_qp id, .ibv_dereg_mr (sb.next + 5), .ibv_dereg_mr (sb.next + 6),
       .free (sb.next + 3), .free (sb.next + 4), .free (sb.next + 2), .rdma_destroy_id id] := by
  simp [on_disconnect, get_state, printf, emit, rdma_destroy_qp, ibv_dereg_mr, free,
    rdma_destroy_id, disconnected_state, accepted_state, State.log, hlive, hs]

theorem on_disconnect_returns (id : Nat) (s : State) :
    on_disconnect id s = .returned 0 (on_disconnect id s).state := by
  obtain ⟨s2, hd, _⟩ := on_disconnect_trace id s
  rw [hd]
  rfl

theorem main_loop_step (env : Transport) (event : rdma_cm_event)
    (rest : List rdma_cm_event) (s s1 : State)
    (h : on_event env event
      (s.log [.rdma_get_cm_event (some event), .rdma_ack_cm_event event]) = .returned 0 s1) :
    main_loop env (event :: rest) s = main_loop env rest s1 := by
  rw [main_loop_cons, h]
  rfl

theorem main_loop_end (env : Transport) (s : State) :
    (main_loop env [] s).state.stale_releases = s.stale_releases := by
  simp [main_loop, emit]

theorem twice_stale :
    (main_loop env_ok
      [{ event := 4, id := 50 }, { event := 10, id := 50 }, { event := 10, id := 50 }]
      (start_state 1 [50])).state.stale_releases =
      [.rdma_destroy_qp 50, .ibv_dereg_mr 10, .ibv_dereg_mr 11, .free 8, .free 9, .free 7,
       .rdma_destroy_id 50] := by
  have h1 : on_event env_ok { event := 4, id := 50 }
      ((start_state 1 [50]).log (delivery { event := 4, id := 50 })) =
      .returned 0 once_connected :=
    (on_event_connect_request env_ok _ _ rfl).trans
      (on_connect_request_first 50 ((start_state 1 [50]).log (delivery { event := 4, id := 50 }))
        rfl)
  have hc : Connected (once_connected.log (delivery { event := 10, id := 50 })) 50 :=
    (accepted_state_connected env_ok 50 _).under_log _
  have h2 : on_event env_ok { event := 10, id := 50 }
      (once_connected.log (delivery { event := 10, id := 50 })) =
      .returned 0 once_disconnected :=
    (on_event_disconnected env_ok _ _ rfl).trans (on_disconnect_run 50 _ hc)
  have h3 : on_event env_ok { event := 10, id := 50 }
      (once_disconnected.log (delivery { event := 10, id := 50 })) =
      .returned 0
        (on_disconnect 50 (once_disconnected.log (delivery { event := 10, id := 50 }))).state :=
    (on_event_disconnected env_ok _ _ rfl).trans (on_disconnect_returns 50 _)
  rw [main_loop_step env_ok { event := 4, id := 50 } _ (start_state 1 [50]) once_connected h1,
    main_loop_step env_ok { event := 10, id := 50 } _ once_connected once_disconnected h2,
    main_loop_step env_ok { event := 10, id := 50 } _ once_disconnected _ h3,
    main_loop_end]
  exact on_disconnect_again env_ok 50
    (built_state 1 (((start_state 1 [50]).log (delivery { event := 4, id := 50 })).log
      [request_line]))
    (delivery { event := 10, id := 50 }) (delivery { event := 10, id := 50 }) rfl rfl

theorem main_loop_end_trace (env : Transport) (s : State) :
    (main_loop env [] s).state.trace = s.trace ++ [.rdma_get_cm_event none] := by
  simp [main_loop, emit]

theorem on_disconnect_state_trace (id : Nat) (s : State) :
    (on_disconnect id s).state.trace = s.trace ++ disconnect_effects s id := by
  obtain ⟨s2, hd, ht, _⟩ := on_disconnect_trace id s
  rw [hd]
  exact ht

theorem twice_trace :
    ((main_loop env_ok
      [{ event := 4, id := 50 }, { event := 10, id := 50 }, { event := 10, id := 50 }]
      (start_state 1 [50])).state.trace.filter Effect.is_release) =
      [.rdma_destroy_qp 50, .ibv_dereg_mr 10, .ibv_dereg_mr 11, .free 8, .free 9, .free 7,
       .rdma_destroy_id 50,
       .rdma_destroy_qp 50, .ibv_dereg_mr 10, .ibv_dereg_mr 11, .free 8, .free 9, .free 7,
       .rdma_destroy_id 50] := by
  have h1 : on_event env_ok { event := 4, id := 50 }
      ((start_state 1 [50]).log (delivery { event := 4, id := 50 })) =
      .returned 0 once_connected :=
    (on_event_connect_request env_ok _ _ rfl).trans
      (on_connect_request_first 50 ((start_state 1 [50]).log (delivery { event := 4, id := 50 }))
        rfl)
  have hc : Connected (once_connected.log (delivery { event := 10, id := 50 })) 50 :=
    (accepted_state_connected env_ok 50 _).under_log _
  have h2 : on_event env_ok { event := 10, id := 50 }
      (once_connected.log (delivery { event := 10, id := 50 })) =
      .returned 0 once_disconnected :=
    (on_event_disconnected env_ok _ _ rfl).trans (on_disconnect_run 50 _ hc)
  have h3 : on_event env_ok { event := 10, id := 50 }
      (once_disconnected.log (delivery { event := 10, id := 50 })) =
      .returned 0
        (on_disconnect 50 (once_disconnected.log (delivery { event := 10, id := 50 }))).state :=
    (on_event_disconnected env_ok _ _ rfl).trans (on_disconnect_returns 50 _)
  rw [main_loop_step env_ok { event := 4, id := 50 } _ (start_state 1 [50]) once_connected h1,
    main_loop_step env_ok { event := 10, id := 50 } _ once_connected once_disconnected h2,
    main_loop_step env_ok { event := 10, id := 50 } _ once_disconnected _ h3,
    main_loop_end_trace, on_disconnect_state_trace]
  simp [once_disconnected, once_connected, disconnected_state, accepted_state, built_state,
    build_effects, setup_effects, start_state, State.log, delivery, disconnect_effects,
    request_line, Effect.is_release, List.filter]

/-- Counterexample to C7 as stated: the disconnected event delivered twice for the same
identifier makes `on_disconnect` run twice.  The release calls in the trace are the seven
of the first run followed by the same seven again, and the second seven hit resources
that are no longer live: queue pair, both registrations, both buffers, the record and
the identifier are released a second time. -/
theorem teardown_twice_counterexample :
    (main_loop env_ok
      [{ event := 4, id := 50 }, { event := 10, id := 50 }, { event := 10, id := 50 }]
      (start_state 1 [50])).state.trace.filter Effect.is_release =
      [.rdma_destroy_qp 50, .ibv_dereg_mr 10, .ibv_dereg_mr 11, .free 8, .free 9, .free 7,
       .rdma_destroy_id 50,
       .rdma_destroy_qp 50, .ibv_dereg_mr 10, .ibv_dereg_mr 11, .free 8, .free 9, .free 7,
       .rdma_destroy_id 50] ∧
    (main_loop env_ok
      [{ event := 4, id := 50 }, { event := 10, id := 50 }, { event := 10, id := 50 }]
      (start_state 1 [50])).state.stale_releases =
      [.rdma_destroy_qp 50, .ibv_dereg_mr 10, .ibv_dereg_mr 11, .free 8, .free 9, .free 7,
       .rdma_destroy_id 50] :=
  ⟨twice_trace, twice_stale⟩

end Server
